import Mathlib

/-!
Verification development for the `gcs-mcp-server` repository.

The repository contains two near-identical catalogs of MCP tool operations
wrapping the Google Cloud Storage client library:

  * `main.py` (the decorated catalog, 15 operations) — embedded below under
    the `M1` prefix;
  * `gcs_mcp_server/main.py` (the plain catalog, 13 operations) — embedded
    under the `M2` prefix.

Each tool wraps a sequence of backend-client calls in `try`/`except` clauses
that translate exceptions into result values.  The backend (the GCS service
and the local filesystem) is external to the repository, so it is modelled as
an oracle (`Backend`): a record of possibly-failing primitive calls, one per
client-library primitive the tools invoke.  Python exception propagation is
modelled by the `Except PyExn` monad: `pySeq` is statement sequencing (an
exception aborts the rest of the `try` block) and `pyTry` applies the chain
of `except` clauses of a tool to the outcome of its `try` block.

A second, stateful model (`GCSState`, suffix `S`) interprets the small set of
backend primitives needed by the upload/rename/copy claims against an
explicit store of buckets, objects and local files; those primitive
interpretations are modelled from the specification, since the client
library's code is not part of the repository.
-/

/-- The exception categories distinguished by the `except` clauses of the
source: `google.api_core.exceptions.NotFound`, `.Conflict`, `.Forbidden`,
Python's built-in `FileNotFoundError`, and any other `Exception`.  Each
carries the text that `str(e)` would render. -/
inductive PyExn where
  | notFound (detail : String)
  | conflict (detail : String)
  | forbidden (detail : String)
  | fileNotFound (detail : String)
  | other (detail : String)
deriving DecidableEq

/-- `str(e)` for a caught exception, as interpolated by the handlers. -/
def PyExn.msg : PyExn → String
  | .notFound d => d
  | .conflict d => d
  | .forbidden d => d
  | .fileNotFound d => d
  | .other d => d

/-- A Python scalar value as it appears in the metadata dictionaries the
tools return (string, integer, boolean, or `None`). -/
inductive PyVal where
  | str (s : String)
  | int (n : Int)
  | bool (b : Bool)
  | none
deriving DecidableEq

/-- A bucket object as produced by `storage_client.list_buckets()`; the tools
only read its `name`. -/
structure BucketObj where
  name : String
deriving DecidableEq

/-- A blob object as produced by `storage_client.list_blobs(...)` or
`bucket.rename_blob(...)`; the tools only read its `name`. -/
structure BlobObj where
  name : String
deriving DecidableEq

/-- The bucket attributes read by `get_bucket_metadata`.  Timestamps are
carried as their `isoformat()` rendering (`none` when the attribute is
`None` in Python). -/
structure BucketMeta where
  id : String
  name : String
  location : String
  storage_class : String
  time_created : Option String
  updated : Option String
  versioning_enabled : Bool
deriving DecidableEq

/-- The blob attributes read by `get_blob_metadata`.  `bucketName` is
`blob.bucket.name`; `updated` is carried as its `isoformat()` rendering. -/
structure BlobMeta where
  name : String
  bucketName : String
  size : Int
  content_type : String
  updated : Option String
  storage_class : String
  crc32c : String
  md5_hash : String
deriving DecidableEq

/-- The CORS-rule payload of `set_bucket_cors`: a list of rule dictionaries,
passed through to the backend unexamined. -/
abbrev CorsRules := List (List (String × PyVal))

/-- The backend oracle: one field per client-library primitive the tools
invoke.  Each field yields either a value or the exception the call raised.
`clientInit` is the `storage.Client()` constructor. -/
structure Backend where
  clientInit : Except PyExn Unit
  listBuckets : Except PyExn (List BucketObj)
  createBucket : String → String → Except PyExn Unit
  deleteBucket : String → Bool → Except PyExn Unit
  listBlobs : String → Except PyExn (List BlobObj)
  uploadFromFilename : String → String → String → Except PyExn Unit
  downloadToFilename : String → String → String → Except PyExn Unit
  deleteBlob : String → String → Except PyExn Unit
  getBucket : String → Except PyExn BucketMeta
  getBlob : String → String → Except PyExn (Option BlobMeta)
  blobExists : String → String → Except PyExn Bool
  signUrl : String → String → Int → Except PyExn String
  renameBlob : String → String → String → Except PyExn BlobObj
  copyBlob : String → String → String → String → Except PyExn Unit
  patchCors : String → CorsRules → Except PyExn Unit

/-- Statement sequencing inside a `try` block: a raised exception skips the
rest of the block. -/
def pySeq {α β : Type} (a : Except PyExn α) (k : α → Except PyExn β) : Except PyExn β :=
  match a with
  | .error e => .error e
  | .ok v => k v

/-- Applies a tool's chain of `except` clauses to the outcome of its `try`
block.  The handler returns `some` when one of the clauses matches the
exception class and `none` when the exception would propagate out of the
tool uncaught. -/
def pyTry {α : Type} (body : Except PyExn α) (handler : PyExn → Option α) : Except PyExn α :=
  match body with
  | .ok v => .ok v
  | .error e =>
    match handler e with
    | some v => .ok v
    | Option.none => .error e

theorem pySeq_ok {α β : Type} {a : Except PyExn α} {v : α} {k : α → Except PyExn β}
    (h : a = .ok v) : pySeq a k = k v := by
  rw [h]; rfl

theorem pySeq_error {α β : Type} {a : Except PyExn α} {e : PyExn} {k : α → Except PyExn β}
    (h : a = .error e) : pySeq a k = .error e := by
  rw [h]; rfl

theorem pyTry_ok {α : Type} {body : Except PyExn α} {v : α} {handler : PyExn → Option α}
    (h : body = .ok v) : pyTry body handler = .ok v := by
  rw [h]; rfl

theorem pyTry_error {α : Type} {body : Except PyExn α} {e : PyExn} {handler : PyExn → Option α}
    {m : α} (h : body = .error e) (hm : handler e = some m) :
    pyTry body handler = .ok m := by
  rw [h]
  show (match handler e with
        | some v => Except.ok v
        | Option.none => Except.error e) = Except.ok m
  rw [hm]

theorem pyTry_isOk {α : Type} (body : Except PyExn α) (handler : PyExn → Option α)
    (h : ∀ e, (handler e).isSome) : ∃ r, pyTry body handler = .ok r := by
  cases hb : body with
  | ok v => exact ⟨v, rfl⟩
  | error e =>
    rcases ho : handler e with _ | m
    · exact absurd (ho ▸ h e) (by simp)
    · refine ⟨m, ?_⟩
      show (match handler e with
            | some v => Except.ok v
            | Option.none => Except.error e) = Except.ok m
      rw [ho]

/-! ### The decorated catalog: `main.py` (prefix `M1`)

Every backend-touching tool of `main.py` begins its `try` block with
`storage_client = storage.Client()`, so each embedding starts with
`bk.clientInit`.  `bucket = storage_client.bucket(...)` and
`blob = bucket.blob(...)` are local constructors that perform no backend
call and are elided.  Handlers list the tool's `except` clauses in source
order, ending with the `except Exception` catch-all. -/

/-- Tool `greet` of `main.py`: a pure formatted greeting. -/
def M1.greet (name : String) : String :=
  "Hello " ++ name ++ "! It\x27s a pleasure to connect from your enhanced MCP Server."

/-- The `except` clauses of `list_gcs_buckets` in `main.py`: `Forbidden`,
then `Exception`. -/
def M1.list_gcs_buckets_handler : PyExn → Option (List String)
  | .forbidden d => some ["Error: Permission denied to list buckets. Details: " ++ d]
  | e => some ["An unexpected error occurred: " ++ e.msg]

/-- Tool `list_gcs_buckets` of `main.py`. -/
def M1.list_gcs_buckets (bk : Backend) : Except PyExn (List String) :=
  pyTry
    (pySeq bk.clientInit fun _ =>
      pySeq bk.listBuckets fun buckets =>
        .ok (buckets.map fun b => b.name))
    M1.list_gcs_buckets_handler

/-- The `except` clauses of `create_bucket` in `main.py`: `Conflict`,
`Forbidden`, then `Exception`. -/
def M1.create_bucket_handler (bucket_name : String) : PyExn → Option String
  | .conflict _ => some ("⚠️ Error: Bucket \x27" ++ bucket_name ++ "\x27 already exists.")
  | .forbidden d => some ("❌ Error: Permission denied to create bucket. Details: " ++ d)
  | e => some ("❌ Unexpected error: " ++ e.msg)

/-- Tool `create_bucket` of `main.py` (`location` defaults to `"US"` at the
transport layer). -/
def M1.create_bucket (bk : Backend) (bucket_name location : String) : Except PyExn String :=
  pyTry
    (pySeq bk.clientInit fun _ =>
      pySeq (bk.createBucket bucket_name location) fun _ =>
        .ok ("✅ Bucket \x27" ++ bucket_name ++ "\x27 created successfully in \x27" ++ location ++ "\x27."))
    (M1.create_bucket_handler bucket_name)

/-- The `except` clauses of `delete_bucket` in `main.py`: `NotFound`,
`Forbidden`, then `Exception`. -/
def M1.delete_bucket_handler (bucket_name : String) : PyExn → Option String
  | .notFound _ => some ("⚠️ Error: Bucket \x27" ++ bucket_name ++ "\x27 not found.")
  | .forbidden d => some ("❌ Error: Permission denied to delete bucket. Details: " ++ d)
  | e => some ("❌ Unexpected error: " ++ e.msg)

/-- Tool `delete_bucket` of `main.py` (`bucket.delete(force=True)`). -/
def M1.delete_bucket (bk : Backend) (bucket_name : String) : Except PyExn String :=
  pyTry
    (pySeq bk.clientInit fun _ =>
      pySeq (bk.deleteBucket bucket_name true) fun _ =>
        .ok ("🗑️ Bucket \x27" ++ bucket_name ++ "\x27 deleted successfully."))
    (M1.delete_bucket_handler bucket_name)

/-- The `except` clauses of `list_objects` in `main.py`: `NotFound`, then
`Exception`. -/
def M1.list_objects_handler (bucket_name : String) : PyExn → Option (List String)
  | .notFound _ => some ["⚠️ Error: Bucket \x27" ++ bucket_name ++ "\x27 not found."]
  | e => some ["❌ Unexpected error: " ++ e.msg]

/-- Tool `list_objects` of `main.py`. -/
def M1.list_objects (bk : Backend) (bucket_name : String) : Except PyExn (List String) :=
  pyTry
    (pySeq bk.clientInit fun _ =>
      pySeq (bk.listBlobs bucket_name) fun blobs =>
        .ok (blobs.map fun b => b.name))
    (M1.list_objects_handler bucket_name)

/-- The `except` clauses of `upload_blob` in `main.py`: `FileNotFoundError`,
`NotFound`, `Forbidden`, then `Exception`. -/
def M1.upload_blob_handler (bucket_name source_file_name : String) : PyExn → Option String
  | .fileNotFound _ => some ("⚠️ Local file \x27" ++ source_file_name ++ "\x27 not found.")
  | .notFound _ => some ("⚠️ Bucket \x27" ++ bucket_name ++ "\x27 not found.")
  | .forbidden d => some ("❌ Permission denied. Details: " ++ d)
  | e => some ("❌ Unexpected error: " ++ e.msg)

/-- Tool `upload_blob` of `main.py`. -/
def M1.upload_blob (bk : Backend) (bucket_name source_file_name destination_blob_name : String) :
    Except PyExn String :=
  pyTry
    (pySeq bk.clientInit fun _ =>
      pySeq (bk.uploadFromFilename bucket_name destination_blob_name source_file_name) fun _ =>
        .ok ("📤 File \x27" ++ source_file_name ++ "\x27 uploaded to \x27" ++
          destination_blob_name ++ "\x27 in bucket \x27" ++ bucket_name ++ "\x27."))
    (M1.upload_blob_handler bucket_name source_file_name)

/-- The `except` clauses of `download_blob` in `main.py`: `NotFound`, then
`Exception`. -/
def M1.download_blob_handler (bucket_name blob_name : String) : PyExn → Option String
  | .notFound _ => some ("⚠️ Error: Bucket \x27" ++ bucket_name ++ "\x27 or blob \x27" ++
      blob_name ++ "\x27 not found.")
  | e => some ("❌ Unexpected error: " ++ e.msg)

/-- Tool `download_blob` of `main.py`. -/
def M1.download_blob (bk : Backend) (bucket_name blob_name destination_file_name : String) :
    Except PyExn String :=
  pyTry
    (pySeq bk.clientInit fun _ =>
      pySeq (bk.downloadToFilename bucket_name blob_name destination_file_name) fun _ =>
        .ok ("📥 Blob \x27" ++ blob_name ++ "\x27 downloaded to \x27" ++
          destination_file_name ++ "\x27."))
    (M1.download_blob_handler bucket_name blob_name)

/-- The `except` clauses of `delete_blob` in `main.py`: `NotFound`,
`Forbidden`, then `Exception`. -/
def M1.delete_blob_handler (bucket_name blob_name : String) : PyExn → Option String
  | .notFound _ => some ("⚠️ Error: Bucket \x27" ++ bucket_name ++ "\x27 or blob \x27" ++
      blob_name ++ "\x27 not found.")
  | .forbidden d => some ("❌ Permission denied. Details: " ++ d)
  | e => some ("❌ Unexpected error: " ++ e.msg)

/-- Tool `delete_blob` of `main.py`. -/
def M1.delete_blob (bk : Backend) (bucket_name blob_name : String) : Except PyExn String :=
  pyTry
    (pySeq bk.clientInit fun _ =>
      pySeq (bk.deleteBlob bucket_name blob_name) fun _ =>
        .ok ("🗑️ Blob \x27" ++ blob_name ++ "\x27 deleted from bucket \x27" ++ bucket_name ++ "\x27."))
    (M1.delete_blob_handler bucket_name blob_name)

/-- The success dictionary of `get_bucket_metadata` in `main.py`:
timestamps render through `isoformat()` when present and `None` otherwise. -/
def M1.bucket_metadata_dict (b : BucketMeta) : List (String × PyVal) :=
  [("id", .str b.id),
   ("name", .str b.name),
   ("location", .str b.location),
   ("storage_class", .str b.storage_class),
   ("created", match b.time_created with | some t => .str t | Option.none => PyVal.none),
   ("updated", match b.updated with | some t => .str t | Option.none => PyVal.none),
   ("versioning_enabled", .bool b.versioning_enabled)]

/-- The `except` clauses of `get_bucket_metadata` in `main.py`: `NotFound`,
then `Exception`. -/
def M1.get_bucket_metadata_handler (bucket_name : String) : PyExn → Option (List (String × PyVal))
  | .notFound _ => some [("error", .str ("⚠️ Bucket \x27" ++ bucket_name ++ "\x27 not found."))]
  | e => some [("error", .str ("❌ Unexpected error: " ++ e.msg))]

/-- Tool `get_bucket_metadata` of `main.py`. -/
def M1.get_bucket_metadata (bk : Backend) (bucket_name : String) :
    Except PyExn (List (String × PyVal)) :=
  pyTry
    (pySeq bk.clientInit fun _ =>
      pySeq (bk.getBucket bucket_name) fun b =>
        .ok (M1.bucket_metadata_dict b))
    (M1.get_bucket_metadata_handler bucket_name)

/-- The success dictionary of `get_blob_metadata` in `main.py`. -/
def M1.blob_metadata_dict (b : BlobMeta) : List (String × PyVal) :=
  [("name", .str b.name),
   ("bucket", .str b.bucketName),
   ("size", .int b.size),
   ("content_type", .str b.content_type),
   ("updated", match b.updated with | some t => .str t | Option.none => PyVal.none),
   ("storage_class", .str b.storage_class),
   ("crc32c", .str b.crc32c),
   ("md5_hash", .str b.md5_hash)]

/-- The `except` clauses of `get_blob_metadata` in `main.py`: `NotFound`,
then `Exception`. -/
def M1.get_blob_metadata_handler (bucket_name : String) : PyExn → Option (List (String × PyVal))
  | .notFound _ => some [("error", .str ("⚠️ Bucket \x27" ++ bucket_name ++ "\x27 not found."))]
  | e => some [("error", .str ("❌ Unexpected error: " ++ e.msg))]

/-- Tool `get_blob_metadata` of `main.py`: `bucket.get_blob` yields `None`
for an absent object (returned as an `"error"` dictionary inside the `try`
block), and raises `NotFound` for an absent bucket. -/
def M1.get_blob_metadata (bk : Backend) (bucket_name blob_name : String) :
    Except PyExn (List (String × PyVal)) :=
  pyTry
    (pySeq bk.clientInit fun _ =>
      pySeq (bk.getBlob bucket_name blob_name) fun ob =>
        match ob with
        | Option.none =>
          .ok [("error", .str ("⚠️ Blob \x27" ++ blob_name ++ "\x27 not found in \x27" ++
            bucket_name ++ "\x27."))]
        | some b => .ok (M1.blob_metadata_dict b))
    (M1.get_blob_metadata_handler bucket_name)

/-- The `except` clauses of `generate_signed_url` in `main.py`: `NotFound`,
then `Exception`. -/
def M1.generate_signed_url_handler (bucket_name : String) : PyExn → Option String
  | .notFound _ => some ("⚠️ Bucket \x27" ++ bucket_name ++ "\x27 not found.")
  | e => some ("❌ Unexpected error: " ++ e.msg)

/-- Tool `generate_signed_url` of `main.py`: existence precheck
(`blob.exists()`) before the signing call (`expiration_minutes` defaults to
15 at the transport layer). -/
def M1.generate_signed_url (bk : Backend) (bucket_name blob_name : String)
    (expiration_minutes : Int) : Except PyExn String :=
  pyTry
    (pySeq bk.clientInit fun _ =>
      pySeq (bk.blobExists bucket_name blob_name) fun ex =>
        if !ex then
          .ok ("⚠️ Blob \x27" ++ blob_name ++ "\x27 not found.")
        else
          pySeq (bk.signUrl bucket_name blob_name expiration_minutes) fun url =>
            .ok ("🔗 Signed URL (valid " ++ toString expiration_minutes ++ " min): " ++ url))
    (M1.generate_signed_url_handler bucket_name)

/-- The single `except` clause of `rename_blob` in `main.py`: only the
`Exception` catch-all. -/
def M1.rename_blob_handler : PyExn → Option String
  | e => some ("❌ Unexpected error: " ++ e.msg)

/-- Tool `rename_blob` of `main.py`: existence precheck before
`bucket.rename_blob`; the success message uses the returned blob's name. -/
def M1.rename_blob (bk : Backend) (bucket_name blob_name new_name : String) :
    Except PyExn String :=
  pyTry
    (pySeq bk.clientInit fun _ =>
      pySeq (bk.blobExists bucket_name blob_name) fun ex =>
        if !ex then
          .ok ("⚠️ Blob \x27" ++ blob_name ++ "\x27 not found.")
        else
          pySeq (bk.renameBlob bucket_name blob_name new_name) fun new_blob =>
            .ok ("✏️ Blob renamed from \x27" ++ blob_name ++ "\x27 → \x27" ++ new_blob.name ++ "\x27."))
    M1.rename_blob_handler

/-- The single `except` clause of `copy_blob` in `main.py`: only the
`Exception` catch-all. -/
def M1.copy_blob_handler : PyExn → Option String
  | e => some ("❌ Unexpected error: " ++ e.msg)

/-- Tool `copy_blob` of `main.py`: existence precheck on the source blob
before `source_bucket.copy_blob`. -/
def M1.copy_blob (bk : Backend)
    (source_bucket_name blob_name destination_bucket_name destination_blob_name : String) :
    Except PyExn String :=
  pyTry
    (pySeq bk.clientInit fun _ =>
      pySeq (bk.blobExists source_bucket_name blob_name) fun ex =>
        if !ex then
          .ok ("⚠️ Source blob \x27" ++ blob_name ++ "\x27 not found.")
        else
          pySeq (bk.copyBlob source_bucket_name blob_name destination_bucket_name
              destination_blob_name) fun _ =>
            .ok ("📦 Blob \x27" ++ blob_name ++ "\x27 copied → \x27" ++ destination_blob_name ++
              "\x27 in \x27" ++ destination_bucket_name ++ "\x27."))
    M1.copy_blob_handler

/-- The single `except` clause of `set_bucket_cors` in `main.py`: only the
`Exception` catch-all. -/
def M1.set_bucket_cors_handler : PyExn → Option String
  | e => some ("❌ Unexpected error: " ++ e.msg)

/-- Tool `set_bucket_cors` of `main.py`: `get_bucket` (a backend read), then
`bucket.patch()` carrying the CORS payload. -/
def M1.set_bucket_cors (bk : Backend) (bucket_name : String) (cors_rules : CorsRules) :
    Except PyExn String :=
  pyTry
    (pySeq bk.clientInit fun _ =>
      pySeq (bk.getBucket bucket_name) fun _ =>
        pySeq (bk.patchCors bucket_name cors_rules) fun _ =>
          .ok ("🌐 CORS config updated for \x27" ++ bucket_name ++ "\x27."))
    M1.set_bucket_cors_handler

/-- Tool `health_check` of `main.py`: a constant, touching no backend. -/
def M1.health_check : String := "✅ Server is up and running!"

/-- The shapes a tool result can take: a string, a list of strings, or a
string-keyed dictionary. -/
inductive ToolResult where
  | str (s : String)
  | list (l : List String)
  | dict (d : List (String × PyVal))
deriving DecidableEq

/-- A named invocation of one of the 15 tools of `main.py`, with its typed
arguments. -/
inductive M1.Call where
  | greet (name : String)
  | list_gcs_buckets
  | create_bucket (bucket_name location : String)
  | delete_bucket (bucket_name : String)
  | list_objects (bucket_name : String)
  | upload_blob (bucket_name source_file_name destination_blob_name : String)
  | download_blob (bucket_name blob_name destination_file_name : String)
  | delete_blob (bucket_name blob_name : String)
  | get_bucket_metadata (bucket_name : String)
  | get_blob_metadata (bucket_name blob_name : String)
  | generate_signed_url (bucket_name blob_name : String) (expiration_minutes : Int)
  | rename_blob (bucket_name blob_name new_name : String)
  | copy_blob (source_bucket_name blob_name destination_bucket_name destination_blob_name : String)
  | set_bucket_cors (bucket_name : String) (cors_rules : CorsRules)
  | health_check

/-- The tool catalog of `main.py` as a single dispatcher: routes a named
invocation to the corresponding tool. -/
def M1.dispatch (bk : Backend) : M1.Call → Except PyExn ToolResult
  | .greet n => .ok (.str (M1.greet n))
  | .list_gcs_buckets => (M1.list_gcs_buckets bk).map .list
  | .create_bucket b l => (M1.create_bucket bk b l).map .str
  | .delete_bucket b => (M1.delete_bucket bk b).map .str
  | .list_objects b => (M1.list_objects bk b).map .list
  | .upload_blob b s d => (M1.upload_blob bk b s d).map .str
  | .download_blob b n d => (M1.download_blob bk b n d).map .str
  | .delete_blob b n => (M1.delete_blob bk b n).map .str
  | .get_bucket_metadata b => (M1.get_bucket_metadata bk b).map .dict
  | .get_blob_metadata b n => (M1.get_blob_metadata bk b n).map .dict
  | .generate_signed_url b n m => (M1.generate_signed_url bk b n m).map .str
  | .rename_blob b n nn => (M1.rename_blob bk b n nn).map .str
  | .copy_blob sb n db dn => (M1.copy_blob bk sb n db dn).map .str
  | .set_bucket_cors b r => (M1.set_bucket_cors bk b r).map .str
  | .health_check => .ok (.str M1.health_check)

/-! ### The plain catalog: `gcs_mcp_server/main.py` (prefix `M2`)

This module constructs its client once at import time
(`storage_client = storage.Client()` at module level) and every tool reuses
that module-level handle: no tool body contains a client construction, so no
`M2` tool reads `Backend.clientInit`. -/

/-- Module-level initialization of `gcs_mcp_server/main.py`: the single
`storage.Client()` construction, run once at import, before any tool call. -/
def M2.moduleInit (bk : Backend) : Except PyExn Unit := bk.clientInit

/-- Tool `greet` of `gcs_mcp_server/main.py` (identical to the decorated
catalog's). -/
def M2.greet (name : String) : String :=
  "Hello " ++ name ++ "! It\x27s a pleasure to connect from your enhanced MCP Server."

/-- The `except` clauses of `list_gcs_buckets` in `gcs_mcp_server/main.py`:
`Forbidden`, then `Exception`. -/
def M2.list_gcs_buckets_handler : PyExn → Option (List String)
  | .forbidden d => some ["Error: Permission denied to list buckets. Details: " ++ d]
  | e => some ["An unexpected error occurred: " ++ e.msg]

/-- Tool `list_gcs_buckets` of `gcs_mcp_server/main.py`. -/
def M2.list_gcs_buckets (bk : Backend) : Except PyExn (List String) :=
  pyTry
    (pySeq bk.listBuckets fun buckets =>
      .ok (buckets.map fun b => b.name))
    M2.list_gcs_buckets_handler

/-- The `except` clauses of `create_bucket` in `gcs_mcp_server/main.py`:
`Conflict`, `Forbidden`, then `Exception`. -/
def M2.create_bucket_handler (bucket_name : String) : PyExn → Option String
  | .conflict _ => some ("Error: Bucket \x27" ++ bucket_name ++ "\x27 already exists.")
  | .forbidden d => some ("Error: Permission denied to create bucket. Details: " ++ d)
  | e => some ("An unexpected error occurred: " ++ e.msg)

/-- Tool `create_bucket` of `gcs_mcp_server/main.py`. -/
def M2.create_bucket (bk : Backend) (bucket_name location : String) : Except PyExn String :=
  pyTry
    (pySeq (bk.createBucket bucket_name location) fun _ =>
      .ok ("Bucket \x27" ++ bucket_name ++ "\x27 created successfully in location \x27" ++
        location ++ "\x27."))
    (M2.create_bucket_handler bucket_name)

/-- The `except` clauses of `delete_bucket` in `gcs_mcp_server/main.py`:
`NotFound`, `Forbidden` (whose message names the bucket), then `Exception`. -/
def M2.delete_bucket_handler (bucket_name : String) : PyExn → Option String
  | .notFound _ => some ("Error: Bucket \x27" ++ bucket_name ++ "\x27 not found.")
  | .forbidden d => some ("Error: Permission denied to delete bucket \x27" ++ bucket_name ++
      "\x27. Details: " ++ d)
  | e => some ("An unexpected error occurred: " ++ e.msg)

/-- Tool `delete_bucket` of `gcs_mcp_server/main.py`
(`bucket.delete(force=True)`). -/
def M2.delete_bucket (bk : Backend) (bucket_name : String) : Except PyExn String :=
  pyTry
    (pySeq (bk.deleteBucket bucket_name true) fun _ =>
      .ok ("Bucket \x27" ++ bucket_name ++ "\x27 deleted successfully."))
    (M2.delete_bucket_handler bucket_name)

/-- The `except` clauses of `list_objects` in `gcs_mcp_server/main.py`:
`NotFound`, then `Exception`. -/
def M2.list_objects_handler (bucket_name : String) : PyExn → Option (List String)
  | .notFound _ => some ["Error: Bucket \x27" ++ bucket_name ++ "\x27 not found."]
  | e => some ["An unexpected error occurred: " ++ e.msg]

/-- Tool `list_objects` of `gcs_mcp_server/main.py`. -/
def M2.list_objects (bk : Backend) (bucket_name : String) : Except PyExn (List String) :=
  pyTry
    (pySeq (bk.listBlobs bucket_name) fun blobs =>
      .ok (blobs.map fun b => b.name))
    (M2.list_objects_handler bucket_name)

/-- The `except` clauses of `upload_blob` in `gcs_mcp_server/main.py`:
`FileNotFoundError`, `NotFound`, `Forbidden`, then `Exception`. -/
def M2.upload_blob_handler (bucket_name source_file_name : String) : PyExn → Option String
  | .fileNotFound _ => some ("Error: Local file \x27" ++ source_file_name ++ "\x27 not found.")
  | .notFound _ => some ("Error: Bucket \x27" ++ bucket_name ++ "\x27 not found.")
  | .forbidden d => some ("Error: Permission denied. Details: " ++ d)
  | e => some ("An unexpected error occurred: " ++ e.msg)

/-- Tool `upload_blob` of `gcs_mcp_server/main.py`. -/
def M2.upload_blob (bk : Backend) (bucket_name source_file_name destination_blob_name : String) :
    Except PyExn String :=
  pyTry
    (pySeq (bk.uploadFromFilename bucket_name destination_blob_name source_file_name) fun _ =>
      .ok ("File \x27" ++ source_file_name ++ "\x27 uploaded to \x27" ++
        destination_blob_name ++ "\x27 in bucket \x27" ++ bucket_name ++ "\x27."))
    (M2.upload_blob_handler bucket_name source_file_name)

/-- The `except` clauses of `download_blob` in `gcs_mcp_server/main.py`:
`NotFound`, then `Exception`. -/
def M2.download_blob_handler (bucket_name blob_name : String) : PyExn → Option String
  | .notFound _ => some ("Error: Bucket \x27" ++ bucket_name ++ "\x27 or blob \x27" ++
      blob_name ++ "\x27 not found.")
  | e => some ("An unexpected error occurred: " ++ e.msg)

/-- Tool `download_blob` of `gcs_mcp_server/main.py`. -/
def M2.download_blob (bk : Backend) (bucket_name blob_name destination_file_name : String) :
    Except PyExn String :=
  pyTry
    (pySeq (bk.downloadToFilename bucket_name blob_name destination_file_name) fun _ =>
      .ok ("Blob \x27" ++ blob_name ++ "\x27 downloaded to \x27" ++ destination_file_name ++ "\x27."))
    (M2.download_blob_handler bucket_name blob_name)

/-- The `except` clauses of `delete_blob` in `gcs_mcp_server/main.py`:
`NotFound`, `Forbidden`, then `Exception`. -/
def M2.delete_blob_handler (bucket_name blob_name : String) : PyExn → Option String
  | .notFound _ => some ("Error: Bucket \x27" ++ bucket_name ++ "\x27 or blob \x27" ++
      blob_name ++ "\x27 not found.")
  | .forbidden d => some ("Error: Permission denied. Details: " ++ d)
  | e => some ("An unexpected error occurred: " ++ e.msg)

/-- Tool `delete_blob` of `gcs_mcp_server/main.py`. -/
def M2.delete_blob (bk : Backend) (bucket_name blob_name : String) : Except PyExn String :=
  pyTry
    (pySeq (bk.deleteBlob bucket_name blob_name) fun _ =>
      .ok ("Blob \x27" ++ blob_name ++ "\x27 deleted from bucket \x27" ++ bucket_name ++ "\x27."))
    (M2.delete_blob_handler bucket_name blob_name)

/-- The `except` clauses of `get_bucket_metadata` in `gcs_mcp_server/main.py`:
`NotFound`, then `Exception`. -/
def M2.get_bucket_metadata_handler (bucket_name : String) : PyExn → Option (List (String × PyVal))
  | .notFound _ => some [("error", .str ("Bucket \x27" ++ bucket_name ++ "\x27 not found."))]
  | e => some [("error", .str ("An unexpected error occurred: " ++ e.msg))]

/-- Tool `get_bucket_metadata` of `gcs_mcp_server/main.py` (the success
dictionary is identical to the decorated catalog's). -/
def M2.get_bucket_metadata (bk : Backend) (bucket_name : String) :
    Except PyExn (List (String × PyVal)) :=
  pyTry
    (pySeq (bk.getBucket bucket_name) fun b =>
      .ok (M1.bucket_metadata_dict b))
    (M2.get_bucket_metadata_handler bucket_name)

/-- The `except` clauses of `get_blob_metadata` in `gcs_mcp_server/main.py`:
`NotFound`, then `Exception`. -/
def M2.get_blob_metadata_handler (bucket_name : String) : PyExn → Option (List (String × PyVal))
  | .notFound _ => some [("error", .str ("Bucket \x27" ++ bucket_name ++ "\x27 not found."))]
  | e => some [("error", .str ("An unexpected error occurred: " ++ e.msg))]

/-- Tool `get_blob_metadata` of `gcs_mcp_server/main.py`: `bucket.get_blob`
yields `None` for an absent object. -/
def M2.get_blob_metadata (bk : Backend) (bucket_name blob_name : String) :
    Except PyExn (List (String × PyVal)) :=
  pyTry
    (pySeq (bk.getBlob bucket_name blob_name) fun ob =>
      match ob with
      | Option.none =>
        .ok [("error", .str ("Blob \x27" ++ blob_name ++ "\x27 not found in bucket \x27" ++
          bucket_name ++ "\x27."))]
      | some b => .ok (M1.blob_metadata_dict b))
    (M2.get_blob_metadata_handler bucket_name)

/-- The `except` clauses of `generate_signed_url` in `gcs_mcp_server/main.py`:
`NotFound`, then `Exception`. -/
def M2.generate_signed_url_handler (bucket_name : String) : PyExn → Option String
  | .notFound _ => some ("Error: Bucket \x27" ++ bucket_name ++ "\x27 not found.")
  | e => some ("An unexpected error occurred: " ++ e.msg)

/-- Tool `generate_signed_url` of `gcs_mcp_server/main.py`: existence
precheck before signing; on success it returns the bare URL. -/
def M2.generate_signed_url (bk : Backend) (bucket_name blob_name : String)
    (expiration_minutes : Int) : Except PyExn String :=
  pyTry
    (pySeq (bk.blobExists bucket_name blob_name) fun ex =>
      if !ex then
        .ok ("Error: Blob \x27" ++ blob_name ++ "\x27 not found in bucket \x27" ++
          bucket_name ++ "\x27.")
      else
        pySeq (bk.signUrl bucket_name blob_name expiration_minutes) fun url =>
          .ok url)
    (M2.generate_signed_url_handler bucket_name)

/-- The `except` clauses of `rename_blob` in `gcs_mcp_server/main.py`:
`NotFound`, then `Exception`. -/
def M2.rename_blob_handler (bucket_name blob_name : String) : PyExn → Option String
  | .notFound _ => some ("Error: Bucket \x27" ++ bucket_name ++ "\x27 or blob \x27" ++
      blob_name ++ "\x27 not found.")
  | e => some ("An unexpected error occurred: " ++ e.msg)

/-- Tool `rename_blob` of `gcs_mcp_server/main.py`: existence precheck
before `bucket.rename_blob`. -/
def M2.rename_blob (bk : Backend) (bucket_name blob_name new_name : String) :
    Except PyExn String :=
  pyTry
    (pySeq (bk.blobExists bucket_name blob_name) fun ex =>
      if !ex then
        .ok ("Error: Source blob \x27" ++ blob_name ++ "\x27 not found.")
      else
        pySeq (bk.renameBlob bucket_name blob_name new_name) fun new_blob =>
          .ok ("Blob \x27" ++ blob_name ++ "\x27 renamed to \x27" ++ new_blob.name ++
            "\x27 in bucket \x27" ++ bucket_name ++ "\x27."))
    (M2.rename_blob_handler bucket_name blob_name)

/-- The `except` clauses of `copy_blob` in `gcs_mcp_server/main.py`:
`NotFound`, then `Exception`. -/
def M2.copy_blob_handler : PyExn → Option String
  | .notFound _ => some "Error: Source or destination bucket not found."
  | e => some ("An unexpected error occurred: " ++ e.msg)

/-- Tool `copy_blob` of `gcs_mcp_server/main.py`: existence precheck on the
source blob before `source_bucket.copy_blob`. -/
def M2.copy_blob (bk : Backend)
    (source_bucket_name blob_name destination_bucket_name destination_blob_name : String) :
    Except PyExn String :=
  pyTry
    (pySeq (bk.blobExists source_bucket_name blob_name) fun ex =>
      if !ex then
        .ok ("Error: Source blob \x27" ++ blob_name ++ "\x27 not found in bucket \x27" ++
          source_bucket_name ++ "\x27.")
      else
        pySeq (bk.copyBlob source_bucket_name blob_name destination_bucket_name
            destination_blob_name) fun _ =>
          .ok ("Blob \x27" ++ blob_name ++ "\x27 copied to \x27" ++ destination_blob_name ++
            "\x27 in bucket \x27" ++ destination_bucket_name ++ "\x27."))
    M2.copy_blob_handler

/-- A named invocation of one of the 13 tools of `gcs_mcp_server/main.py`. -/
inductive M2.Call where
  | greet (name : String)
  | list_gcs_buckets
  | create_bucket (bucket_name location : String)
  | delete_bucket (bucket_name : String)
  | list_objects (bucket_name : String)
  | upload_blob (bucket_name source_file_name destination_blob_name : String)
  | download_blob (bucket_name blob_name destination_file_name : String)
  | delete_blob (bucket_name blob_name : String)
  | get_bucket_metadata (bucket_name : String)
  | get_blob_metadata (bucket_name blob_name : String)
  | generate_signed_url (bucket_name blob_name : String) (expiration_minutes : Int)
  | rename_blob (bucket_name blob_name new_name : String)
  | copy_blob (source_bucket_name blob_name destination_bucket_name destination_blob_name : String)

/-- The tool catalog of `gcs_mcp_server/main.py` as a single dispatcher. -/
def M2.dispatch (bk : Backend) : M2.Call → Except PyExn ToolResult
  | .greet n => .ok (.str (M2.greet n))
  | .list_gcs_buckets => (M2.list_gcs_buckets bk).map .list
  | .create_bucket b l => (M2.create_bucket bk b l).map .str
  | .delete_bucket b => (M2.delete_bucket bk b).map .str
  | .list_objects b => (M2.list_objects bk b).map .list
  | .upload_blob b s d => (M2.upload_blob bk b s d).map .str
  | .download_blob b n d => (M2.download_blob bk b n d).map .str
  | .delete_blob b n => (M2.delete_blob bk b n).map .str
  | .get_bucket_metadata b => (M2.get_bucket_metadata bk b).map .dict
  | .get_blob_metadata b n => (M2.get_blob_metadata bk b n).map .dict
  | .generate_signed_url b n m => (M2.generate_signed_url bk b n m).map .str
  | .rename_blob b n nn => (M2.rename_blob bk b n nn).map .str
  | .copy_blob sb n db dn => (M2.copy_blob bk sb n db dn).map .str

/-! ### Distinguishing message texts

The error messages of a tool are each a constant text with argument and
detail strings spliced in.  Two such messages can never coincide — whatever
is spliced in — as soon as their constant leading texts disagree at some
position (`headDiff`), or their constant trailing texts disagree at some
position from the end (`tailDiff`). -/

/-- Whether two character lists disagree at some common position. -/
def charZipDiff (p q : List Char) : Bool :=
  (p.zip q).any fun c => decide ¬(c.1 = c.2)

theorem append_ne_of_charZipDiff :
    ∀ (p q x y : List Char), charZipDiff p q = true → p ++ x ≠ q ++ y := by
  intro p
  induction p with
  | nil => intro q x y h; simp [charZipDiff] at h
  | cons a p ih =>
    intro q x y h
    cases q with
    | nil => simp [charZipDiff] at h
    | cons b q =>
      simp only [charZipDiff, List.zip_cons_cons, List.any_cons, Bool.or_eq_true] at h
      rcases h with h | h
      · intro heq
        exact (of_decide_eq_true h) (List.head_eq_of_cons_eq heq)
      · intro heq
        exact ih q x y h (List.tail_eq_of_cons_eq heq)

/-- Whether the constant leading texts of two messages disagree at some
common position. -/
def headDiff (p q : String) : Bool := charZipDiff p.data q.data

/-- Whether the constant trailing texts of two messages disagree at some
common position from the end. -/
def tailDiff (s t : String) : Bool := charZipDiff s.data.reverse t.data.reverse

theorem ne_of_headDiff {p q : String} (h : headDiff p q = true) (x y : String) :
    p ++ x ≠ q ++ y := by
  intro heq
  have hd : (p ++ x).data = (q ++ y).data := congrArg String.data heq
  rw [String.data_append, String.data_append] at hd
  exact append_ne_of_charZipDiff p.data q.data x.data y.data h hd

theorem ne_of_tailDiff {s t : String} (h : tailDiff s t = true) (x y : String) :
    x ++ s ≠ y ++ t := by
  intro heq
  have hd : (x ++ s).data = (y ++ t).data := congrArg String.data heq
  rw [String.data_append, String.data_append] at hd
  have hr := congrArg List.reverse hd
  rw [List.reverse_append, List.reverse_append] at hr
  exact append_ne_of_charZipDiff s.data.reverse t.data.reverse x.data.reverse y.data.reverse h hr

/-! ### The stateful backend model (suffix `S`)

The client library and the storage service are outside the repository, so
the mutating primitives used by `upload_blob`, `rename_blob` and `copy_blob`
are interpreted against an explicit store.  Buckets and the objects inside a
bucket are association lists with Python-dictionary update semantics. -/

/-- The content and metadata of one stored object. -/
structure BlobData where
  content : String
  contentType : String
deriving DecidableEq

/-- First-match lookup in an association list. -/
def afind {α : Type} : List (String × α) → String → Option α
  | [], _ => Option.none
  | (k0, v0) :: t, k => if k = k0 then some v0 else afind t k

/-- Update (replacing the value of an existing key, else appending). -/
def aset {α : Type} : List (String × α) → String → α → List (String × α)
  | [], k, v => [(k, v)]
  | (k0, v0) :: t, k, v => if k = k0 then (k0, v) :: t else (k0, v0) :: aset t k v

/-- Removal of a key. -/
def aremove {α : Type} : List (String × α) → String → List (String × α)
  | [], _ => []
  | (k0, v0) :: t, k => if k = k0 then t else (k0, v0) :: aremove t k

theorem afind_aset_self {α : Type} (l : List (String × α)) (k : String) (v : α) :
    afind (aset l k v) k = some v := by
  induction l with
  | nil => simp [aset, afind]
  | cons h t ih =>
    obtain ⟨k0, v0⟩ := h
    by_cases hk : k = k0
    · simp [aset, afind, hk]
    · simp [aset, afind, hk, ih]

theorem afind_aset_ne {α : Type} (l : List (String × α)) {k k' : String} (v : α)
    (h : k' ≠ k) : afind (aset l k v) k' = afind l k' := by
  induction l with
  | nil => simp [aset, afind, h]
  | cons hd t ih =>
    obtain ⟨k0, v0⟩ := hd
    by_cases hk : k = k0
    · subst hk
      simp [aset, afind, h]
    · by_cases hk' : k' = k0
      · simp [aset, afind, hk, hk']
      · simp [aset, afind, hk, hk', ih]

/-- The externally visible storage state: buckets (each a map from object
name to object data) and the local filesystem (path to file content). -/
structure GCSState where
  buckets : List (String × List (String × BlobData))
  localFiles : List (String × String)
deriving DecidableEq

/-- The object stored under `(bucket, name)`, if any. -/
def blobAtS (s : GCSState) (b n : String) : Option BlobData :=
  (afind s.buckets b).bind fun blobs => afind blobs n

/-- Modelled from the spec: `blob.exists()` — a backend read that reports
whether the object is present; a missing bucket reads as an absent object.
The client library implementing it is not part of the repository. -/
def existsS (s : GCSState) (b n : String) : Bool :=
  (blobAtS s b n).isSome

/-- Sequencing of stateful backend calls inside a `try` block: a raised
exception skips the rest of the block but keeps the state reached so far. -/
def pySeqS {α β : Type} (a : Except PyExn α × GCSState)
    (k : α → GCSState → Except PyExn β × GCSState) : Except PyExn β × GCSState :=
  match a with
  | (.error e, s) => (.error e, s)
  | (.ok v, s) => k v s

/-- The `except` chain applied to a stateful `try` block's outcome. -/
def pyTryS {α : Type} (body : Except PyExn α × GCSState) (handler : PyExn → Option α) :
    Except PyExn α × GCSState :=
  match body with
  | (.ok v, s) => (.ok v, s)
  | (.error e, s) =>
    match handler e with
    | some v => (.ok v, s)
    | Option.none => (.error e, s)

/-- Modelled from the spec: `blob.exists()` as a non-mutating backend call.
The client library implementing it is not part of the repository. -/
def existsPrimS (s : GCSState) (b n : String) : Except PyExn Bool × GCSState :=
  (.ok (existsS s b n), s)

/-- Modelled from the spec: `blob.upload_from_filename(source)` — the local
source file is opened first (raising `FileNotFoundError` when absent, before
any backend traffic); then the backend write fails with `NotFound` when the
bucket is absent, else stores the file's content under the destination name.
The client library implementing it is not part of the repository. -/
def uploadPrimS (s : GCSState) (bucket_name destination_blob_name source_file_name : String) :
    Except PyExn Unit × GCSState :=
  match afind s.localFiles source_file_name with
  | Option.none => (.error (.fileNotFound source_file_name), s)
  | some content =>
    match afind s.buckets bucket_name with
    | Option.none => (.error (.notFound bucket_name), s)
    | some blobs =>
      let blobs1 := aset blobs destination_blob_name ⟨content, "application/octet-stream"⟩
      (.ok (), { s with buckets := aset s.buckets bucket_name blobs1 })

/-- Modelled from the spec: `source_bucket.copy_blob(blob, destination_bucket,
destination_blob_name)` — reads the source object and writes a copy of its
content and metadata under the destination name in the destination bucket,
touching nothing else; raises `NotFound` when a bucket or the source object
is absent.  The client library implementing it is not part of the
repository. -/
def copyPrimS (s : GCSState)
    (source_bucket_name blob_name destination_bucket_name destination_blob_name : String) :
    Except PyExn Unit × GCSState :=
  match afind s.buckets source_bucket_name with
  | Option.none => (.error (.notFound source_bucket_name), s)
  | some blobs =>
    match afind blobs blob_name with
    | Option.none => (.error (.notFound blob_name), s)
    | some data =>
      match afind s.buckets destination_bucket_name with
      | Option.none => (.error (.notFound destination_bucket_name), s)
      | some dblobs =>
        let dblobs1 := aset dblobs destination_blob_name data
        (.ok (), { s with buckets := aset s.buckets destination_bucket_name dblobs1 })

/-- Modelled from the spec: `bucket.rename_blob(blob, new_name)` — writes the
object's data under the new name and removes the old name, returning a blob
object named `new_name`; raises `NotFound` when the bucket or the object is
absent.  The client library implementing it is not part of the repository. -/
def renamePrimS (s : GCSState) (bucket_name blob_name new_name : String) :
    Except PyExn BlobObj × GCSState :=
  match afind s.buckets bucket_name with
  | Option.none => (.error (.notFound bucket_name), s)
  | some blobs =>
    match afind blobs blob_name with
    | Option.none => (.error (.notFound blob_name), s)
    | some data =>
      let blobs1 := aremove (aset blobs new_name data) blob_name
      (.ok ⟨new_name⟩, { s with buckets := aset s.buckets bucket_name blobs1 })

/-- Tool `upload_blob` of `main.py`, interpreted against the stateful
backend model (`storage.Client()` is a no-op on the store and is elided). -/
def M1.upload_blobS (s : GCSState)
    (bucket_name source_file_name destination_blob_name : String) :
    Except PyExn String × GCSState :=
  pyTryS
    (pySeqS (uploadPrimS s bucket_name destination_blob_name source_file_name) fun _ s1 =>
      (.ok ("📤 File \x27" ++ source_file_name ++ "\x27 uploaded to \x27" ++
        destination_blob_name ++ "\x27 in bucket \x27" ++ bucket_name ++ "\x27."), s1))
    (M1.upload_blob_handler bucket_name source_file_name)

/-- Tool `upload_blob` of `gcs_mcp_server/main.py`, interpreted against the
stateful backend model. -/
def M2.upload_blobS (s : GCSState)
    (bucket_name source_file_name destination_blob_name : String) :
    Except PyExn String × GCSState :=
  pyTryS
    (pySeqS (uploadPrimS s bucket_name destination_blob_name source_file_name) fun _ s1 =>
      (.ok ("File \x27" ++ source_file_name ++ "\x27 uploaded to \x27" ++
        destination_blob_name ++ "\x27 in bucket \x27" ++ bucket_name ++ "\x27."), s1))
    (M2.upload_blob_handler bucket_name source_file_name)

/-- Tool `rename_blob` of `main.py`, interpreted against the stateful
backend model. -/
def M1.rename_blobS (s : GCSState) (bucket_name blob_name new_name : String) :
    Except PyExn String × GCSState :=
  pyTryS
    (pySeqS (existsPrimS s bucket_name blob_name) fun ex s1 =>
      if !ex then
        (.ok ("⚠️ Blob \x27" ++ blob_name ++ "\x27 not found."), s1)
      else
        pySeqS (renamePrimS s1 bucket_name blob_name new_name) fun new_blob s2 =>
          (.ok ("✏️ Blob renamed from \x27" ++ blob_name ++ "\x27 → \x27" ++ new_blob.name ++
            "\x27."), s2))
    M1.rename_blob_handler

/-- Tool `copy_blob` of `main.py`, interpreted against the stateful backend
model. -/
def M1.copy_blobS (s : GCSState)
    (source_bucket_name blob_name destination_bucket_name destination_blob_name : String) :
    Except PyExn String × GCSState :=
  pyTryS
    (pySeqS (existsPrimS s source_bucket_name blob_name) fun ex s1 =>
      if !ex then
        (.ok ("⚠️ Source blob \x27" ++ blob_name ++ "\x27 not found."), s1)
      else
        pySeqS (copyPrimS s1 source_bucket_name blob_name destination_bucket_name
            destination_blob_name) fun _ s2 =>
          (.ok ("📦 Blob \x27" ++ blob_name ++ "\x27 copied → \x27" ++ destination_blob_name ++
            "\x27 in \x27" ++ destination_bucket_name ++ "\x27."), s2))
    M1.copy_blob_handler

/-- Tool `rename_blob` of `gcs_mcp_server/main.py`, interpreted against the
stateful backend model. -/
def M2.rename_blobS (s : GCSState) (bucket_name blob_name new_name : String) :
    Except PyExn String × GCSState :=
  pyTryS
    (pySeqS (existsPrimS s bucket_name blob_name) fun ex s1 =>
      if !ex then
        (.ok ("Error: Source blob \x27" ++ blob_name ++ "\x27 not found."), s1)
      else
        pySeqS (renamePrimS s1 bucket_name blob_name new_name) fun new_blob s2 =>
          (.ok ("Blob \x27" ++ blob_name ++ "\x27 renamed to \x27" ++ new_blob.name ++
            "\x27 in bucket \x27" ++ bucket_name ++ "\x27."), s2))
    (M2.rename_blob_handler bucket_name blob_name)

/-- Tool `copy_blob` of `gcs_mcp_server/main.py`, interpreted against the
stateful backend model. -/
def M2.copy_blobS (s : GCSState)
    (source_bucket_name blob_name destination_bucket_name destination_blob_name : String) :
    Except PyExn String × GCSState :=
  pyTryS
    (pySeqS (existsPrimS s source_bucket_name blob_name) fun ex s1 =>
      if !ex then
        (.ok ("Error: Source blob \x27" ++ blob_name ++ "\x27 not found in bucket \x27" ++
          source_bucket_name ++ "\x27."), s1)
      else
        pySeqS (copyPrimS s1 source_bucket_name blob_name destination_bucket_name
            destination_blob_name) fun _ s2 =>
          (.ok ("Blob \x27" ++ blob_name ++ "\x27 copied to \x27" ++ destination_blob_name ++
            "\x27 in bucket \x27" ++ destination_bucket_name ++ "\x27."), s2))
    M2.copy_blob_handler

/-! ### Small helper lemmas for the claims -/

theorem mapOk {α : Type} {t : Except PyExn α} (f : α → ToolResult) (h : ∃ r, t = .ok r) :
    ∃ r, t.map f = .ok r := by
  obtain ⟨r, hr⟩ := h
  exact ⟨f r, by rw [hr]; rfl⟩

theorem singleton_ne {α : Type} {a b : α} (h : a ≠ b) : [a] ≠ [b] := by
  intro he
  exact h (List.head_eq_of_cons_eq he)

theorem errdict_ne {a b : String} (h : a ≠ b) :
    [(("error" : String), PyVal.str a)] ≠ [("error", PyVal.str b)] := by
  intro he
  exact h (PyVal.str.inj (congrArg Prod.snd (List.head_eq_of_cons_eq he)))

theorem const_ne_append {c p : String} (h : charZipDiff c.data p.data = true) (y : String) :
    c ≠ p ++ y := by
  intro he
  apply append_ne_of_charZipDiff c.data p.data [] y.data h
  rw [List.append_nil, he, String.data_append]

/-! ### Claims -/

/-- Claim C1: for every tool operation of either catalog and every input,
no exception reaches the caller — every backend, local-IO or runtime failure
raised by a backend primitive is caught by the tool's `except` chain and
converted into a result value of the tool's declared result shape (string,
list of strings, or string-keyed dictionary). -/
theorem claim_C1_no_exception_escapes :
    (∀ (bk : Backend) (c : M1.Call), ∃ r, M1.dispatch bk c = .ok r) ∧
    (∀ (bk : Backend) (c : M2.Call), ∃ r, M2.dispatch bk c = .ok r) := by
  constructor
  · intro bk c
    cases c with
    | greet name => exact ⟨.str (M1.greet name), rfl⟩
    | list_gcs_buckets =>
      exact mapOk .list (pyTry_isOk _ _ (fun e => by cases e <;> rfl))
    | create_bucket b l =>
      exact mapOk .str (pyTry_isOk _ _ (fun e => by cases e <;> rfl))
    | delete_bucket b =>
      exact mapOk .str (pyTry_isOk _ _ (fun e => by cases e <;> rfl))
    | list_objects b =>
      exact mapOk .list (pyTry_isOk _ _ (fun e => by cases e <;> rfl))
    | upload_blob b s dn =>
      exact mapOk .str (pyTry_isOk _ _ (fun e => by cases e <;> rfl))
    | download_blob b n dst =>
      exact mapOk .str (pyTry_isOk _ _ (fun e => by cases e <;> rfl))
    | delete_blob b n =>
      exact mapOk .str (pyTry_isOk _ _ (fun e => by cases e <;> rfl))
    | get_bucket_metadata b =>
      exact mapOk .dict (pyTry_isOk _ _ (fun e => by cases e <;> rfl))
    | get_blob_metadata b n =>
      exact mapOk .dict (pyTry_isOk _ _ (fun e => by cases e <;> rfl))
    | generate_signed_url b n m =>
      exact mapOk .str (pyTry_isOk _ _ (fun e => by cases e <;> rfl))
    | rename_blob b n nn =>
      exact mapOk .str (pyTry_isOk _ _ (fun e => by cases e <;> rfl))
    | copy_blob sb n db dn =>
      exact mapOk .str (pyTry_isOk _ _ (fun e => by cases e <;> rfl))
    | set_bucket_cors b r =>
      exact mapOk .str (pyTry_isOk _ _ (fun e => by cases e <;> rfl))
    | health_check => exact ⟨.str M1.health_check, rfl⟩
  · intro bk c
    cases c with
    | greet name => exact ⟨.str (M2.greet name), rfl⟩
    | list_gcs_buckets =>
      exact mapOk .list (pyTry_isOk _ _ (fun e => by cases e <;> rfl))
    | create_bucket b l =>
      exact mapOk .str (pyTry_isOk _ _ (fun e => by cases e <;> rfl))
    | delete_bucket b =>
      exact mapOk .str (pyTry_isOk _ _ (fun e => by cases e <;> rfl))
    | list_objects b =>
      exact mapOk .list (pyTry_isOk _ _ (fun e => by cases e <;> rfl))
    | upload_blob b s dn =>
      exact mapOk .str (pyTry_isOk _ _ (fun e => by cases e <;> rfl))
    | download_blob b n dst =>
      exact mapOk .str (pyTry_isOk _ _ (fun e => by cases e <;> rfl))
    | delete_blob b n =>
      exact mapOk .str (pyTry_isOk _ _ (fun e => by cases e <;> rfl))
    | get_bucket_metadata b =>
      exact mapOk .dict (pyTry_isOk _ _ (fun e => by cases e <;> rfl))
    | get_blob_metadata b n =>
      exact mapOk .dict (pyTry_isOk _ _ (fun e => by cases e <;> rfl))
    | generate_signed_url b n m =>
      exact mapOk .str (pyTry_isOk _ _ (fun e => by cases e <;> rfl))
    | rename_blob b n nn =>
      exact mapOk .str (pyTry_isOk _ _ (fun e => by cases e <;> rfl))
    | copy_blob sb n db dn =>
      exact mapOk .str (pyTry_isOk _ _ (fun e => by cases e <;> rfl))

/-- Claim C7: `health_check` returns the fixed success string
`"✅ Server is up and running!"` for every backend state — including an
unreachable backend — performs no backend call, and its result does not
depend on backend connectivity. -/
theorem claim_C7_health_check_constant :
    (∀ bk : Backend, M1.dispatch bk .health_check =
      .ok (.str "✅ Server is up and running!")) ∧
    (∀ bk bk' : Backend, M1.dispatch bk .health_check = M1.dispatch bk' .health_check) :=
  ⟨fun _ => rfl, fun _ _ => rfl⟩

/-- A benign concrete bucket-metadata record, for witnesses. -/
def stubBucketMeta : BucketMeta :=
  { id := "id-1", name := "alpha", location := "US", storage_class := "STANDARD",
    time_created := some "2026-01-01T00:00:00", updated := Option.none,
    versioning_enabled := false }

/-- A benign concrete blob-metadata record, for witnesses. -/
def stubBlobMeta : BlobMeta :=
  { name := "o", bucketName := "alpha", size := 42, content_type := "text/plain",
    updated := some "2026-01-02T00:00:00", storage_class := "STANDARD",
    crc32c := "AAAA", md5_hash := "d41d8cd9" }

/-- A concrete backend on which every primitive succeeds, for witnesses. -/
def stubBackend : Backend where
  clientInit := .ok ()
  listBuckets := .ok [⟨"alpha"⟩]
  createBucket := fun _ _ => .ok ()
  deleteBucket := fun _ _ => .ok ()
  listBlobs := fun _ => .ok [⟨"o"⟩]
  uploadFromFilename := fun _ _ _ => .ok ()
  downloadToFilename := fun _ _ _ => .ok ()
  deleteBlob := fun _ _ => .ok ()
  getBucket := fun _ => .ok stubBucketMeta
  getBlob := fun _ _ => .ok (some stubBlobMeta)
  blobExists := fun _ _ => .ok false
  signUrl := fun _ _ _ => .ok "https://signed.example/url"
  renameBlob := fun _ _ nn => .ok ⟨nn⟩
  copyBlob := fun _ _ _ _ => .ok ()
  patchCors := fun _ _ => .ok ()

/-- Claim C3: when the existence precheck reports that the object does not
exist, `generate_signed_url` (in both catalogs) returns the not-found-marked
string, and the signing primitive is never invoked: the result is the same
for every possible behavior `f` of the signer. -/
theorem claim_C3_signed_url_precheck (bk : Backend) (bucket_name blob_name : String)
    (expiration_minutes : Int) (f : String → String → Int → Except PyExn String)
    (hc : bk.clientInit = .ok ())
    (he : bk.blobExists bucket_name blob_name = .ok false) :
    M1.generate_signed_url bk bucket_name blob_name expiration_minutes =
      .ok ("⚠️ Blob \x27" ++ blob_name ++ "\x27 not found.") ∧
    M1.generate_signed_url { bk with signUrl := f } bucket_name blob_name expiration_minutes =
      M1.generate_signed_url bk bucket_name blob_name expiration_minutes ∧
    M2.generate_signed_url bk bucket_name blob_name expiration_minutes =
      .ok ("Error: Blob \x27" ++ blob_name ++ "\x27 not found in bucket \x27" ++
        bucket_name ++ "\x27.") ∧
    M2.generate_signed_url { bk with signUrl := f } bucket_name blob_name expiration_minutes =
      M2.generate_signed_url bk bucket_name blob_name expiration_minutes := by
  have h1 : ∀ (bk' : Backend), bk'.clientInit = .ok () →
      bk'.blobExists bucket_name blob_name = .ok false →
      M1.generate_signed_url bk' bucket_name blob_name expiration_minutes =
        .ok ("⚠️ Blob \x27" ++ blob_name ++ "\x27 not found.") := by
    intro bk' hc' he'
    simp [M1.generate_signed_url, pySeq_ok hc', pySeq_ok he', pyTry]
  have h2 : ∀ (bk' : Backend), bk'.blobExists bucket_name blob_name = .ok false →
      M2.generate_signed_url bk' bucket_name blob_name expiration_minutes =
        .ok ("Error: Blob \x27" ++ blob_name ++ "\x27 not found in bucket \x27" ++
          bucket_name ++ "\x27.") := by
    intro bk' he'
    simp [M2.generate_signed_url, pySeq_ok he', pyTry]
  exact ⟨h1 bk hc he, (h1 { bk with signUrl := f } hc he).trans (h1 bk hc he).symm,
    h2 bk he, (h2 { bk with signUrl := f } he).trans (h2 bk he).symm⟩

/-- Witness for claim C3 at a concrete backend on which the object is
absent. -/
theorem claim_C3_witness :
    stubBackend.clientInit = .ok () ∧
    stubBackend.blobExists "alpha" "o" = .ok false ∧
    M1.generate_signed_url stubBackend "alpha" "o" 15 = .ok "⚠️ Blob \x27o\x27 not found." :=
  ⟨rfl, rfl,
    (claim_C3_signed_url_precheck stubBackend "alpha" "o" 15
      (fun _ _ _ => .ok "u") rfl rfl).1⟩

/-- Claim C5: for the list-returning operations of `main.py`, a backend
not-found or permission-denied failure yields a list of exactly one element
containing the error text — never an empty list and never an uncaught
error. -/
theorem claim_C5_list_ops_error_shape (bk : Backend) (bucket_name d : String)
    (hc : bk.clientInit = .ok ()) :
    (bk.listBuckets = .error (.notFound d) →
      M1.list_gcs_buckets bk = .ok ["An unexpected error occurred: " ++ d]) ∧
    (bk.listBuckets = .error (.forbidden d) →
      M1.list_gcs_buckets bk = .ok ["Error: Permission denied to list buckets. Details: " ++ d]) ∧
    (bk.listBlobs bucket_name = .error (.notFound d) →
      M1.list_objects bk bucket_name =
        .ok ["⚠️ Error: Bucket \x27" ++ bucket_name ++ "\x27 not found."]) ∧
    (bk.listBlobs bucket_name = .error (.forbidden d) →
      M1.list_objects bk bucket_name = .ok ["❌ Unexpected error: " ++ d]) := by
  refine ⟨?_, ?_, ?_, ?_⟩ <;> intro h
  · simp [M1.list_gcs_buckets, pySeq_ok hc, pySeq_error h, pyTry,
      M1.list_gcs_buckets_handler, PyExn.msg]
  · simp [M1.list_gcs_buckets, pySeq_ok hc, pySeq_error h, pyTry,
      M1.list_gcs_buckets_handler]
  · simp [M1.list_objects, pySeq_ok hc, pySeq_error h, pyTry,
      M1.list_objects_handler]
  · simp [M1.list_objects, pySeq_ok hc, pySeq_error h, pyTry,
      M1.list_objects_handler, PyExn.msg]

/-- A concrete backend whose listing primitives raise `NotFound`, for the
claim C5 witness. -/
def stubListNotFound : Backend :=
  { stubBackend with
      listBuckets := .error (.notFound "404 bucket missing"),
      listBlobs := fun _ => .error (.notFound "404 bucket missing") }

/-- Witness for claim C5 at a concrete backend whose listing call raises
`NotFound`. -/
theorem claim_C5_witness :
    stubListNotFound.clientInit = .ok () ∧
    stubListNotFound.listBuckets = .error (.notFound "404 bucket missing") ∧
    M1.list_gcs_buckets stubListNotFound =
      .ok ["An unexpected error occurred: 404 bucket missing"] :=
  ⟨rfl, rfl,
    (claim_C5_list_ops_error_shape stubListNotFound "alpha" "404 bucket missing" rfl).1 rfl⟩

theorem bucket_meta_handler_shape_M1 (b : String) (e : PyExn) :
    ∃ s, M1.get_bucket_metadata_handler b e = some [("error", PyVal.str s)] := by
  cases e <;> exact ⟨_, rfl⟩

theorem blob_meta_handler_shape_M1 (b : String) (e : PyExn) :
    ∃ s, M1.get_blob_metadata_handler b e = some [("error", PyVal.str s)] := by
  cases e <;> exact ⟨_, rfl⟩

theorem bucket_meta_handler_shape_M2 (b : String) (e : PyExn) :
    ∃ s, M2.get_bucket_metadata_handler b e = some [("error", PyVal.str s)] := by
  cases e <;> exact ⟨_, rfl⟩

theorem blob_meta_handler_shape_M2 (b : String) (e : PyExn) :
    ∃ s, M2.get_blob_metadata_handler b e = some [("error", PyVal.str s)] := by
  cases e <;> exact ⟨_, rfl⟩

/-- Claim C6: for the map-returning operations of both catalogs, every error
condition (bucket absent, blob absent, or any unexpected failure) yields a
dictionary whose key set is exactly `["error"]` with a string value — never
a partially populated metadata dictionary — and no success dictionary
contains an `"error"` key. -/
theorem claim_C6_map_ops_error_shape (bk : Backend) (bucket_name blob_name : String)
    (hc : bk.clientInit = .ok ()) :
    (∀ e, bk.getBucket bucket_name = .error e →
      ∃ s, M1.get_bucket_metadata bk bucket_name = .ok [("error", PyVal.str s)]) ∧
    (∀ mb, bk.getBucket bucket_name = .ok mb →
      M1.get_bucket_metadata bk bucket_name = .ok (M1.bucket_metadata_dict mb) ∧
      (M1.bucket_metadata_dict mb).map Prod.fst =
        ["id", "name", "location", "storage_class", "created", "updated",
         "versioning_enabled"] ∧
      "error" ∉ (M1.bucket_metadata_dict mb).map Prod.fst) ∧
    (∀ e, bk.getBlob bucket_name blob_name = .error e →
      ∃ s, M1.get_blob_metadata bk bucket_name blob_name = .ok [("error", PyVal.str s)]) ∧
    (bk.getBlob bucket_name blob_name = .ok Option.none →
      M1.get_blob_metadata bk bucket_name blob_name =
        .ok [("error", PyVal.str ("⚠️ Blob \x27" ++ blob_name ++ "\x27 not found in \x27" ++
          bucket_name ++ "\x27."))]) ∧
    (∀ mb, bk.getBlob bucket_name blob_name = .ok (some mb) →
      M1.get_blob_metadata bk bucket_name blob_name = .ok (M1.blob_metadata_dict mb) ∧
      (M1.blob_metadata_dict mb).map Prod.fst =
        ["name", "bucket", "size", "content_type", "updated", "storage_class",
         "crc32c", "md5_hash"] ∧
      "error" ∉ (M1.blob_metadata_dict mb).map Prod.fst) ∧
    (∀ e, bk.getBucket bucket_name = .error e →
      ∃ s, M2.get_bucket_metadata bk bucket_name = .ok [("error", PyVal.str s)]) ∧
    (∀ mb, bk.getBucket bucket_name = .ok mb →
      M2.get_bucket_metadata bk bucket_name = .ok (M1.bucket_metadata_dict mb)) ∧
    (∀ e, bk.getBlob bucket_name blob_name = .error e →
      ∃ s, M2.get_blob_metadata bk bucket_name blob_name = .ok [("error", PyVal.str s)]) ∧
    (bk.getBlob bucket_name blob_name = .ok Option.none →
      M2.get_blob_metadata bk bucket_name blob_name =
        .ok [("error", PyVal.str ("Blob \x27" ++ blob_name ++ "\x27 not found in bucket \x27" ++
          bucket_name ++ "\x27."))]) ∧
    (∀ mb, bk.getBlob bucket_name blob_name = .ok (some mb) →
      M2.get_blob_metadata bk bucket_name blob_name = .ok (M1.blob_metadata_dict mb)) := by
  refine ⟨?_, ?_, ?_, ?_, ?_, ?_, ?_, ?_, ?_, ?_⟩
  · intro e he
    obtain ⟨s, hs⟩ := bucket_meta_handler_shape_M1 bucket_name e
    refine ⟨s, ?_⟩
    simp only [M1.get_bucket_metadata, pySeq_ok hc, pySeq_error he]
    exact pyTry_error rfl hs
  · intro mb hm
    have hk : (M1.bucket_metadata_dict mb).map Prod.fst =
        ["id", "name", "location", "storage_class", "created", "updated",
         "versioning_enabled"] := rfl
    refine ⟨by simp [M1.get_bucket_metadata, pySeq_ok hc, pySeq_ok hm, pyTry], hk, ?_⟩
    rw [hk]
    decide
  · intro e he
    obtain ⟨s, hs⟩ := blob_meta_handler_shape_M1 bucket_name e
    refine ⟨s, ?_⟩
    simp only [M1.get_blob_metadata, pySeq_ok hc, pySeq_error he]
    exact pyTry_error rfl hs
  · intro hn
    simp [M1.get_blob_metadata, pySeq_ok hc, pySeq_ok hn, pyTry]
  · intro mb hm
    have hk : (M1.blob_metadata_dict mb).map Prod.fst =
        ["name", "bucket", "size", "content_type", "updated", "storage_class",
         "crc32c", "md5_hash"] := rfl
    refine ⟨by simp [M1.get_blob_metadata, pySeq_ok hc, pySeq_ok hm, pyTry], hk, ?_⟩
    rw [hk]
    decide
  · intro e he
    obtain ⟨s, hs⟩ := bucket_meta_handler_shape_M2 bucket_name e
    refine ⟨s, ?_⟩
    simp only [M2.get_bucket_metadata, pySeq_error he]
    exact pyTry_error rfl hs
  · intro mb hm
    simp [M2.get_bucket_metadata, pySeq_ok hm, pyTry]
  · intro e he
    obtain ⟨s, hs⟩ := blob_meta_handler_shape_M2 bucket_name e
    refine ⟨s, ?_⟩
    simp only [M2.get_blob_metadata, pySeq_error he]
    exact pyTry_error rfl hs
  · intro hn
    simp [M2.get_blob_metadata, pySeq_ok hn, pyTry]
  · intro mb hm
    simp [M2.get_blob_metadata, pySeq_ok hm, pyTry]

/-- A concrete backend whose metadata reads raise `NotFound`, for the claim
C6 witness. -/
def stubMetaNotFound : Backend :=
  { stubBackend with
      getBucket := fun _ => .error (.notFound "404 bucket missing"),
      getBlob := fun _ _ => .error (.notFound "404 bucket missing") }

/-- Witness for claim C6 at a concrete backend whose metadata read raises
`NotFound`. -/
theorem claim_C6_witness :
    stubMetaNotFound.clientInit = .ok () ∧
    stubMetaNotFound.getBucket "alpha" = .error (.notFound "404 bucket missing") ∧
    ∃ s, M1.get_bucket_metadata stubMetaNotFound "alpha" = .ok [("error", PyVal.str s)] :=
  ⟨rfl, rfl,
    (claim_C6_map_ops_error_shape stubMetaNotFound "alpha" "o" rfl).1
      (.notFound "404 bucket missing") rfl⟩

/-- Claim C4: when the source object does not exist, `rename_blob` and
`copy_blob` (both catalogs) return the not-found-marked result and perform
no destination-side backend mutation: the result is independent of the
mutating primitive's behavior, and in the stateful model the store —
destination included — is returned exactly as it was. -/
theorem claim_C4_missing_source_no_mutation (bk : Backend) (s : GCSState)
    (bucket_name blob_name new_name db dn : String)
    (fr : String → String → String → Except PyExn BlobObj)
    (fc : String → String → String → String → Except PyExn Unit)
    (hc : bk.clientInit = .ok ())
    (he : bk.blobExists bucket_name blob_name = .ok false)
    (hes : existsS s bucket_name blob_name = false) :
    M1.rename_blob bk bucket_name blob_name new_name =
      .ok ("⚠️ Blob \x27" ++ blob_name ++ "\x27 not found.") ∧
    M1.rename_blob { bk with renameBlob := fr } bucket_name blob_name new_name =
      M1.rename_blob bk bucket_name blob_name new_name ∧
    M1.copy_blob bk bucket_name blob_name db dn =
      .ok ("⚠️ Source blob \x27" ++ blob_name ++ "\x27 not found.") ∧
    M1.copy_blob { bk with copyBlob := fc } bucket_name blob_name db dn =
      M1.copy_blob bk bucket_name blob_name db dn ∧
    M2.rename_blob bk bucket_name blob_name new_name =
      .ok ("Error: Source blob \x27" ++ blob_name ++ "\x27 not found.") ∧
    M2.rename_blob { bk with renameBlob := fr } bucket_name blob_name new_name =
      M2.rename_blob bk bucket_name blob_name new_name ∧
    M2.copy_blob bk bucket_name blob_name db dn =
      .ok ("Error: Source blob \x27" ++ blob_name ++ "\x27 not found in bucket \x27" ++
        bucket_name ++ "\x27.") ∧
    M2.copy_blob { bk with copyBlob := fc } bucket_name blob_name db dn =
      M2.copy_blob bk bucket_name blob_name db dn ∧
    M1.rename_blobS s bucket_name blob_name new_name =
      (.ok ("⚠️ Blob \x27" ++ blob_name ++ "\x27 not found."), s) ∧
    M1.copy_blobS s bucket_name blob_name db dn =
      (.ok ("⚠️ Source blob \x27" ++ blob_name ++ "\x27 not found."), s) ∧
    M2.rename_blobS s bucket_name blob_name new_name =
      (.ok ("Error: Source blob \x27" ++ blob_name ++ "\x27 not found."), s) ∧
    M2.copy_blobS s bucket_name blob_name db dn =
      (.ok ("Error: Source blob \x27" ++ blob_name ++ "\x27 not found in bucket \x27" ++
        bucket_name ++ "\x27."), s) := by
  have hr1 : ∀ (bk' : Backend), bk'.clientInit = .ok () →
      bk'.blobExists bucket_name blob_name = .ok false →
      M1.rename_blob bk' bucket_name blob_name new_name =
        .ok ("⚠️ Blob \x27" ++ blob_name ++ "\x27 not found.") := by
    intro bk' hc' he'
    simp [M1.rename_blob, pySeq_ok hc', pySeq_ok he', pyTry]
  have hcp1 : ∀ (bk' : Backend), bk'.clientInit = .ok () →
      bk'.blobExists bucket_name blob_name = .ok false →
      M1.copy_blob bk' bucket_name blob_name db dn =
        .ok ("⚠️ Source blob \x27" ++ blob_name ++ "\x27 not found.") := by
    intro bk' hc' he'
    simp [M1.copy_blob, pySeq_ok hc', pySeq_ok he', pyTry]
  have hr2 : ∀ (bk' : Backend), bk'.blobExists bucket_name blob_name = .ok false →
      M2.rename_blob bk' bucket_name blob_name new_name =
        .ok ("Error: Source blob \x27" ++ blob_name ++ "\x27 not found.") := by
    intro bk' he'
    simp [M2.rename_blob, pySeq_ok he', pyTry]
  have hcp2 : ∀ (bk' : Backend), bk'.blobExists bucket_name blob_name = .ok false →
      M2.copy_blob bk' bucket_name blob_name db dn =
        .ok ("Error: Source blob \x27" ++ blob_name ++ "\x27 not found in bucket \x27" ++
          bucket_name ++ "\x27.") := by
    intro bk' he'
    simp [M2.copy_blob, pySeq_ok he', pyTry]
  refine ⟨hr1 bk hc he, (hr1 { bk with renameBlob := fr } hc he).trans (hr1 bk hc he).symm,
    hcp1 bk hc he, (hcp1 { bk with copyBlob := fc } hc he).trans (hcp1 bk hc he).symm,
    hr2 bk he, (hr2 { bk with renameBlob := fr } he).trans (hr2 bk he).symm,
    hcp2 bk he, (hcp2 { bk with copyBlob := fc } he).trans (hcp2 bk he).symm,
    ?_, ?_, ?_, ?_⟩
  · simp [M1.rename_blobS, existsPrimS, pySeqS, hes, pyTryS]
  · simp [M1.copy_blobS, existsPrimS, pySeqS, hes, pyTryS]
  · simp [M2.rename_blobS, existsPrimS, pySeqS, hes, pyTryS]
  · simp [M2.copy_blobS, existsPrimS, pySeqS, hes, pyTryS]

/-- A concrete store with one bucket, one object and one local file, for
witnesses. -/
def stubState : GCSState :=
  { buckets := [("alpha", [("o", ⟨"hello", "text/plain"⟩)])],
    localFiles := [("file.txt", "data")] }

/-- Witness for claim C4 at a concrete backend and store on which the source
object `"missing"` is absent. -/
theorem claim_C4_witness :
    stubBackend.clientInit = .ok () ∧
    stubBackend.blobExists "alpha" "missing" = .ok false ∧
    existsS stubState "alpha" "missing" = false ∧
    M1.copy_blobS stubState "alpha" "missing" "beta" "c" =
      (.ok "⚠️ Source blob \x27missing\x27 not found.", stubState) :=
  ⟨rfl, rfl, by decide,
    (claim_C4_missing_source_no_mutation stubBackend stubState "alpha" "missing" "nn" "beta" "c"
      (fun _ _ nn => .ok ⟨nn⟩) (fun _ _ _ _ => .ok ()) rfl rfl (by decide)).2.2.2.2.2.2.2.2.2.1⟩

/-- Claim C9: when the local source file does not exist, `upload_blob` (both
catalogs) returns the local-file-missing message — not a bucket-not-found or
generic message — and performs no backend mutation, even when the target
bucket does not exist either: the store is returned exactly as it was, the
local `FileNotFoundError` being raised before any backend write. -/
theorem claim_C9_upload_missing_local_file (s : GCSState)
    (bucket_name source_file_name destination_blob_name : String)
    (hf : afind s.localFiles source_file_name = Option.none) :
    M1.upload_blobS s bucket_name source_file_name destination_blob_name =
      (.ok ("⚠️ Local file \x27" ++ source_file_name ++ "\x27 not found."), s) ∧
    M2.upload_blobS s bucket_name source_file_name destination_blob_name =
      (.ok ("Error: Local file \x27" ++ source_file_name ++ "\x27 not found."), s) := by
  constructor
  · simp [M1.upload_blobS, uploadPrimS, hf, pySeqS, pyTryS, M1.upload_blob_handler]
  · simp [M2.upload_blobS, uploadPrimS, hf, pySeqS, pyTryS, M2.upload_blob_handler]

/-- Witness for claim C9 at a concrete store with no bucket named
`"nobucket"` and no local file named `"missing.txt"`. -/
theorem claim_C9_witness :
    afind stubState.localFiles "missing.txt" = Option.none ∧
    afind stubState.buckets "nobucket" = Option.none ∧
    M1.upload_blobS stubState "nobucket" "missing.txt" "d" =
      (.ok "⚠️ Local file \x27missing.txt\x27 not found.", stubState) :=
  ⟨by decide, by decide,
    (claim_C9_upload_missing_local_file stubState "nobucket" "missing.txt" "d" (by decide)).1⟩

/-- The given backend with its deleting, renaming and uploading primitives
replaced by arbitrary behaviors — used to state that `copy_blob` consults
none of them. -/
def Backend.withMutators (bk : Backend) (fdel : String → String → Except PyExn Unit)
    (fren : String → String → String → Except PyExn BlobObj)
    (fdb : String → Bool → Except PyExn Unit)
    (fup : String → String → String → Except PyExn Unit) : Backend :=
  { bk with deleteBlob := fdel, renameBlob := fren, deleteBucket := fdb, uploadFromFilename := fup }

/-- Claim C10: `copy_blob` never modifies or deletes the source object.  For
every store and every invocation — successful or not — the source object's
content and metadata are unchanged after the call, every bucket other than
the destination bucket is untouched, the local filesystem is untouched (the
plain catalog's `copy_blob` drives the store identically), and the oracle
result is independent of every deleting or renaming backend primitive. -/
theorem claim_C10_copy_preserves_source (s : GCSState) (sb n db dn : String) (bk : Backend)
    (fdel : String → String → Except PyExn Unit)
    (fren : String → String → String → Except PyExn BlobObj)
    (fdb : String → Bool → Except PyExn Unit)
    (fup : String → String → String → Except PyExn Unit) :
    blobAtS (M1.copy_blobS s sb n db dn).2 sb n = blobAtS s sb n ∧
    (∀ b', b' ≠ db → afind (M1.copy_blobS s sb n db dn).2.buckets b' = afind s.buckets b') ∧
    (M1.copy_blobS s sb n db dn).2.localFiles = s.localFiles ∧
    (M2.copy_blobS s sb n db dn).2 = (M1.copy_blobS s sb n db dn).2 ∧
    M1.copy_blob (bk.withMutators fdel fren fdb fup) sb n db dn =
      M1.copy_blob bk sb n db dn := by
  cases hex : existsS s sb n with
  | false =>
    have h1 : M1.copy_blobS s sb n db dn =
        (.ok ("⚠️ Source blob \x27" ++ n ++ "\x27 not found."), s) := by
      simp [M1.copy_blobS, existsPrimS, pySeqS, hex, pyTryS]
    have h2 : M2.copy_blobS s sb n db dn =
        (.ok ("Error: Source blob \x27" ++ n ++ "\x27 not found in bucket \x27" ++
          sb ++ "\x27."), s) := by
      simp [M2.copy_blobS, existsPrimS, pySeqS, hex, pyTryS]
    rw [h1, h2]
    exact ⟨rfl, fun _ _ => rfl, rfl, rfl, rfl⟩
  | true =>
    rcases hb : afind s.buckets sb with _ | blobs
    · rw [existsS, blobAtS, hb] at hex
      simp at hex
    rcases hd : afind blobs n with _ | bd
    · rw [existsS, blobAtS, hb] at hex
      simp [hd] at hex
    rcases hdb : afind s.buckets db with _ | dblobs
    · have h1 : M1.copy_blobS s sb n db dn = (.ok ("❌ Unexpected error: " ++ db), s) := by
        simp [M1.copy_blobS, existsPrimS, pySeqS, hex, copyPrimS, hb, hd, hdb, pyTryS,
          M1.copy_blob_handler, PyExn.msg]
      have h2 : M2.copy_blobS s sb n db dn =
          (.ok "Error: Source or destination bucket not found.", s) := by
        simp [M2.copy_blobS, existsPrimS, pySeqS, hex, copyPrimS, hb, hd, hdb, pyTryS,
          M2.copy_blob_handler]
      rw [h1, h2]
      exact ⟨rfl, fun _ _ => rfl, rfl, rfl, rfl⟩
    · have h1 : M1.copy_blobS s sb n db dn =
          (.ok ("📦 Blob \x27" ++ n ++ "\x27 copied → \x27" ++ dn ++ "\x27 in \x27" ++ db ++
            "\x27."),
           { s with buckets := aset s.buckets db (aset dblobs dn bd) }) := by
        simp [M1.copy_blobS, existsPrimS, pySeqS, hex, copyPrimS, hb, hd, hdb, pyTryS]
      have h2 : M2.copy_blobS s sb n db dn =
          (.ok ("Blob \x27" ++ n ++ "\x27 copied to \x27" ++ dn ++ "\x27 in bucket \x27" ++ db ++
            "\x27."),
           { s with buckets := aset s.buckets db (aset dblobs dn bd) }) := by
        simp [M2.copy_blobS, existsPrimS, pySeqS, hex, copyPrimS, hb, hd, hdb, pyTryS]
      rw [h1, h2]
      refine ⟨?_, ?_, rfl, rfl, rfl⟩
      · by_cases hsd : sb = db
        · subst hsd
          have hbl : dblobs = blobs := by
            rw [hb] at hdb
            exact (Option.some.inj hdb).symm
          subst hbl
          show (afind (aset s.buckets sb (aset dblobs dn bd)) sb).bind
              (fun bl => afind bl n) = blobAtS s sb n
          rw [afind_aset_self, blobAtS, hb]
          by_cases hnd : n = dn
          · subst hnd
            simp [afind_aset_self, hd]
          · simp [afind_aset_ne _ _ hnd, hd]
        · show (afind (aset s.buckets db (aset dblobs dn bd)) sb).bind
              (fun bl => afind bl n) = blobAtS s sb n
          rw [afind_aset_ne _ _ hsd, blobAtS]
      · intro b' hb'
        exact afind_aset_ne _ _ hb'

/-- Witness for claim C10's frame conditions at a concrete store (source and
destination both present). -/
theorem claim_C10_witness :
    "alpha" ≠ "beta" ∧
    blobAtS (M1.copy_blobS stubState "alpha" "o" "alpha" "o2").2 "alpha" "o" =
      blobAtS stubState "alpha" "o" ∧
    afind (M1.copy_blobS stubState "alpha" "o" "alpha" "o2").2.buckets "beta" =
      afind stubState.buckets "beta" :=
  ⟨by decide,
    (claim_C10_copy_preserves_source stubState "alpha" "o" "alpha" "o2" stubBackend
      (fun _ _ => .ok ()) (fun _ _ nn => .ok ⟨nn⟩) (fun _ _ => .ok ())
      (fun _ _ _ => .ok ())).1,
    (claim_C10_copy_preserves_source stubState "alpha" "o" "alpha" "o2" stubBackend
      (fun _ _ => .ok ()) (fun _ _ nn => .ok ⟨nn⟩) (fun _ _ => .ok ())
      (fun _ _ _ => .ok ())).2.1 "beta" (by decide)⟩

/-- The benign stub backend with a failing `storage.Client()` constructor,
for the claim C8 counterexample. -/
def stubInitFail : Backend :=
  { stubBackend with clientInit := .error (.other "client construction failed") }

/-- Counterexample to claim C8: in `main.py` the client handle is NOT a
single process-wide value — every tool runs `storage.Client()` inside its
own call, so the very same `list_gcs_buckets` invocation yields different
results under backends that differ only in the per-call client
construction.  A once-initialized, reused handle could not make the tool's
result depend on a per-call construction outcome. -/
theorem claim_C8_counterexample :
    M1.list_gcs_buckets stubBackend = .ok ["alpha"] ∧
    M1.list_gcs_buckets stubInitFail =
      .ok ["An unexpected error occurred: client construction failed"] ∧
    M1.list_gcs_buckets stubInitFail ≠ M1.list_gcs_buckets stubBackend := by
  refine ⟨rfl, rfl, ?_⟩
  intro h
  have h1 : M1.list_gcs_buckets stubInitFail =
      .ok ["An unexpected error occurred: client construction failed"] := rfl
  have h2 : M1.list_gcs_buckets stubBackend = .ok ["alpha"] := rfl
  rw [h1, h2] at h
  exact absurd (List.head_eq_of_cons_eq (Except.ok.inj h)) (by decide)

/-- Claim C8 as amended: only `gcs_mcp_server/main.py` constructs the client
once (at module initialization) and reuses it — its tools never consult the
per-call client construction, so replacing that construction's behavior
changes nothing.  In `main.py`, by contrast, every backend-touching tool
constructs a new client inside each call: a failing per-call construction
surfaces in the result of every one of its 13 backend-touching tools. -/
theorem claim_C8_amended_client_handling (bk : Backend) (d : String)
    (c : Except PyExn Unit)
    (b l src n nn db dn f : String) (m : Int) (r : CorsRules)
    (hc : bk.clientInit = .error (.other d)) :
    M1.list_gcs_buckets bk = .ok ["An unexpected error occurred: " ++ d] ∧
    M1.create_bucket bk b l = .ok ("❌ Unexpected error: " ++ d) ∧
    M1.delete_bucket bk b = .ok ("❌ Unexpected error: " ++ d) ∧
    M1.list_objects bk b = .ok ["❌ Unexpected error: " ++ d] ∧
    M1.upload_blob bk b src dn = .ok ("❌ Unexpected error: " ++ d) ∧
    M1.download_blob bk b n f = .ok ("❌ Unexpected error: " ++ d) ∧
    M1.delete_blob bk b n = .ok ("❌ Unexpected error: " ++ d) ∧
    M1.get_bucket_metadata bk b = .ok [("error", .str ("❌ Unexpected error: " ++ d))] ∧
    M1.get_blob_metadata bk b n = .ok [("error", .str ("❌ Unexpected error: " ++ d))] ∧
    M1.generate_signed_url bk b n m = .ok ("❌ Unexpected error: " ++ d) ∧
    M1.rename_blob bk b n nn = .ok ("❌ Unexpected error: " ++ d) ∧
    M1.copy_blob bk b n db dn = .ok ("❌ Unexpected error: " ++ d) ∧
    M1.set_bucket_cors bk b r = .ok ("❌ Unexpected error: " ++ d) ∧
    M2.list_gcs_buckets { bk with clientInit := c } = M2.list_gcs_buckets bk ∧
    M2.create_bucket { bk with clientInit := c } b l = M2.create_bucket bk b l ∧
    M2.delete_bucket { bk with clientInit := c } b = M2.delete_bucket bk b ∧
    M2.list_objects { bk with clientInit := c } b = M2.list_objects bk b ∧
    M2.upload_blob { bk with clientInit := c } b src dn = M2.upload_blob bk b src dn ∧
    M2.download_blob { bk with clientInit := c } b n f = M2.download_blob bk b n f ∧
    M2.delete_blob { bk with clientInit := c } b n = M2.delete_blob bk b n ∧
    M2.get_bucket_metadata { bk with clientInit := c } b = M2.get_bucket_metadata bk b ∧
    M2.get_blob_metadata { bk with clientInit := c } b n = M2.get_blob_metadata bk b n ∧
    M2.generate_signed_url { bk with clientInit := c } b n m =
      M2.generate_signed_url bk b n m ∧
    M2.rename_blob { bk with clientInit := c } b n nn = M2.rename_blob bk b n nn ∧
    M2.copy_blob { bk with clientInit := c } b n db dn = M2.copy_blob bk b n db dn := by
  refine ⟨?_, ?_, ?_, ?_, ?_, ?_, ?_, ?_, ?_, ?_, ?_, ?_, ?_,
    rfl, rfl, rfl, rfl, rfl, rfl, rfl, rfl, rfl, rfl, rfl, rfl⟩
  · simp [M1.list_gcs_buckets, pySeq_error hc, pyTry, M1.list_gcs_buckets_handler, PyExn.msg]
  · simp [M1.create_bucket, pySeq_error hc, pyTry, M1.create_bucket_handler, PyExn.msg]
  · simp [M1.delete_bucket, pySeq_error hc, pyTry, M1.delete_bucket_handler, PyExn.msg]
  · simp [M1.list_objects, pySeq_error hc, pyTry, M1.list_objects_handler, PyExn.msg]
  · simp [M1.upload_blob, pySeq_error hc, pyTry, M1.upload_blob_handler, PyExn.msg]
  · simp [M1.download_blob, pySeq_error hc, pyTry, M1.download_blob_handler, PyExn.msg]
  · simp [M1.delete_blob, pySeq_error hc, pyTry, M1.delete_blob_handler, PyExn.msg]
  · simp [M1.get_bucket_metadata, pySeq_error hc, pyTry, M1.get_bucket_metadata_handler,
      PyExn.msg]
  · simp [M1.get_blob_metadata, pySeq_error hc, pyTry, M1.get_blob_metadata_handler, PyExn.msg]
  · simp [M1.generate_signed_url, pySeq_error hc, pyTry, M1.generate_signed_url_handler,
      PyExn.msg]
  · simp [M1.rename_blob, pySeq_error hc, pyTry, M1.rename_blob_handler, PyExn.msg]
  · simp [M1.copy_blob, pySeq_error hc, pyTry, M1.copy_blob_handler, PyExn.msg]
  · simp [M1.set_bucket_cors, pySeq_error hc, pyTry, M1.set_bucket_cors_handler, PyExn.msg]

/-- Witness for the amended claim C8 at the concrete backend whose client
construction fails. -/
theorem claim_C8_witness :
    stubInitFail.clientInit = .error (.other "client construction failed") ∧
    M1.rename_blob stubInitFail "alpha" "o" "p" =
      .ok "❌ Unexpected error: client construction failed" :=
  ⟨rfl,
    (claim_C8_amended_client_handling stubInitFail "client construction failed" (.ok ())
      "alpha" "US" "s" "o" "p" "beta" "d" "dest" 15 [] rfl).2.2.2.2.2.2.2.2.2.2.1⟩

/-- A backend whose object-existence check succeeds and whose rename and
create primitives raise `Forbidden`, for the claim C2 counterexample. -/
def stubForbidden : Backend :=
  { stubBackend with
      blobExists := fun _ _ => .ok true,
      renameBlob := fun _ _ _ => .error (.forbidden "403 caller lacks permission"),
      createBucket := fun _ _ => .error (.forbidden "403 caller lacks permission") }

/-- A backend whose object-existence check succeeds and whose rename
primitive raises a generic exception carrying the same text, for the claim
C2 counterexample. -/
def stubOtherExn : Backend :=
  { stubBackend with
      blobExists := fun _ _ => .ok true,
      renameBlob := fun _ _ _ => .error (.other "403 caller lacks permission") }

/-- A backend whose object-existence check succeeds and whose copy primitive
raises `NotFound`, for the claim C2 counterexample. -/
def stubCopyNotFound : Backend :=
  { stubBackend with
      blobExists := fun _ _ => .ok true,
      copyBlob := fun _ _ _ _ => .error (.notFound "404 bucket missing") }

/-- Counterexample to claim C2 as stated.  `rename_blob` of `main.py`
declares no category handlers, so a permission-denied failure and a generic
failure produce the very same message — the category is not recoverable, and
the permission category gets no category-specific wording.  Moreover two
declared clauses do not name the resource: `create_bucket`'s permission
message is identical for two different bucket names, and the `NotFound`
clause of `copy_blob` in `gcs_mcp_server/main.py` yields a constant message
that is identical for two entirely different bucket/object name pairs. -/
theorem claim_C2_counterexample :
    M1.rename_blob stubForbidden "alpha" "o" "p" =
      .ok "❌ Unexpected error: 403 caller lacks permission" ∧
    M1.rename_blob stubOtherExn "alpha" "o" "p" =
      .ok "❌ Unexpected error: 403 caller lacks permission" ∧
    M1.rename_blob stubForbidden "alpha" "o" "p" =
      M1.rename_blob stubOtherExn "alpha" "o" "p" ∧
    M1.create_bucket stubForbidden "mybucket" "US" =
      M1.create_bucket stubForbidden "otherbucket" "US" ∧
    M2.copy_blob stubCopyNotFound "alpha" "o" "beta" "c" =
      .ok "Error: Source or destination bucket not found." ∧
    M2.copy_blob stubCopyNotFound "alpha" "o" "beta" "c" =
      M2.copy_blob stubCopyNotFound "gamma" "o2" "delta" "c2" :=
  ⟨rfl, rfl, rfl, rfl, rfl, rfl⟩

/-- Claim C2 as amended: for every tool operation and every error category
for which that operation declares an `except` clause, a backend failure of
that category yields that clause's category-specific message (the specific
clauses are checked before the generic fallback); permission messages embed
the backend detail but do not name the resource; not-found and conflict
messages name the resource, with one exception — the `NotFound` clause of
`copy_blob` in `gcs_mcp_server/main.py` yields the constant
`"Error: Source or destination bucket not found."`, naming neither bucket;
and within any one operation the messages of the distinct handled categories
and of the generic fallback never share wording, whatever is spliced into
them.  Operations without category clauses — `rename_blob`, `copy_blob` and
`set_bucket_cors` in `main.py` — return the generic unexpected-error message
for every category. -/
theorem claim_C2_amended_category_messages (bk : Backend)
    (b b2 l n nn src db dn f d d2 : String) (m : Int) (r : CorsRules) (bm : BucketMeta)
    (hc : bk.clientInit = .ok ()) :
    -- main.py: list_gcs_buckets
    (bk.listBuckets = .error (.forbidden d) →
      M1.list_gcs_buckets bk = .ok ["Error: Permission denied to list buckets. Details: " ++ d]) ∧
    (bk.listBuckets = .error (.other d) →
      M1.list_gcs_buckets bk = .ok ["An unexpected error occurred: " ++ d]) ∧
    (["Error: Permission denied to list buckets. Details: " ++ d] ≠
      ["An unexpected error occurred: " ++ d2]) ∧
    -- main.py: create_bucket
    (bk.createBucket b l = .error (.conflict d) →
      M1.create_bucket bk b l = .ok ("⚠️ Error: Bucket \x27" ++ b ++ "\x27 already exists.")) ∧
    (bk.createBucket b l = .error (.forbidden d) →
      M1.create_bucket bk b l =
        .ok ("❌ Error: Permission denied to create bucket. Details: " ++ d)) ∧
    (bk.createBucket b l = .error (.other d) →
      M1.create_bucket bk b l = .ok ("❌ Unexpected error: " ++ d)) ∧
    ("⚠️ Error: Bucket \x27" ++ b ++ "\x27 already exists." ≠
      "❌ Error: Permission denied to create bucket. Details: " ++ d2) ∧
    ("⚠️ Error: Bucket \x27" ++ b ++ "\x27 already exists." ≠ "❌ Unexpected error: " ++ d2) ∧
    ("❌ Error: Permission denied to create bucket. Details: " ++ d ≠
      "❌ Unexpected error: " ++ d2) ∧
    -- main.py: delete_bucket
    (bk.deleteBucket b true = .error (.notFound d) →
      M1.delete_bucket bk b = .ok ("⚠️ Error: Bucket \x27" ++ b ++ "\x27 not found.")) ∧
    (bk.deleteBucket b true = .error (.forbidden d) →
      M1.delete_bucket bk b =
        .ok ("❌ Error: Permission denied to delete bucket. Details: " ++ d)) ∧
    (bk.deleteBucket b true = .error (.other d) →
      M1.delete_bucket bk b = .ok ("❌ Unexpected error: " ++ d)) ∧
    ("⚠️ Error: Bucket \x27" ++ b ++ "\x27 not found." ≠
      "❌ Error: Permission denied to delete bucket. Details: " ++ d2) ∧
    ("⚠️ Error: Bucket \x27" ++ b ++ "\x27 not found." ≠ "❌ Unexpected error: " ++ d2) ∧
    ("❌ Error: Permission denied to delete bucket. Details: " ++ d ≠
      "❌ Unexpected error: " ++ d2) ∧
    -- main.py: list_objects
    (bk.listBlobs b = .error (.notFound d) →
      M1.list_objects bk b = .ok ["⚠️ Error: Bucket \x27" ++ b ++ "\x27 not found."]) ∧
    (bk.listBlobs b = .error (.other d) →
      M1.list_objects bk b = .ok ["❌ Unexpected error: " ++ d]) ∧
    (["⚠️ Error: Bucket \x27" ++ b ++ "\x27 not found."] ≠ ["❌ Unexpected error: " ++ d2]) ∧
    -- main.py: upload_blob
    (bk.uploadFromFilename b dn src = .error (.fileNotFound d) →
      M1.upload_blob bk b src dn = .ok ("⚠️ Local file \x27" ++ src ++ "\x27 not found.")) ∧
    (bk.uploadFromFilename b dn src = .error (.notFound d) →
      M1.upload_blob bk b src dn = .ok ("⚠️ Bucket \x27" ++ b ++ "\x27 not found.")) ∧
    (bk.uploadFromFilename b dn src = .error (.forbidden d) →
      M1.upload_blob bk b src dn = .ok ("❌ Permission denied. Details: " ++ d)) ∧
    (bk.uploadFromFilename b dn src = .error (.other d) →
      M1.upload_blob bk b src dn = .ok ("❌ Unexpected error: " ++ d)) ∧
    ("⚠️ Local file \x27" ++ src ++ "\x27 not found." ≠
      "⚠️ Bucket \x27" ++ b2 ++ "\x27 not found.") ∧
    ("⚠️ Local file \x27" ++ src ++ "\x27 not found." ≠ "❌ Permission denied. Details: " ++ d2) ∧
    ("⚠️ Local file \x27" ++ src ++ "\x27 not found." ≠ "❌ Unexpected error: " ++ d2) ∧
    ("⚠️ Bucket \x27" ++ b ++ "\x27 not found." ≠ "❌ Permission denied. Details: " ++ d2) ∧
    ("⚠️ Bucket \x27" ++ b ++ "\x27 not found." ≠ "❌ Unexpected error: " ++ d2) ∧
    ("❌ Permission denied. Details: " ++ d ≠ "❌ Unexpected error: " ++ d2) ∧
    -- main.py: download_blob
    (bk.downloadToFilename b n f = .error (.notFound d) →
      M1.download_blob bk b n f =
        .ok ("⚠️ Error: Bucket \x27" ++ b ++ "\x27 or blob \x27" ++ n ++ "\x27 not found.")) ∧
    (bk.downloadToFilename b n f = .error (.other d) →
      M1.download_blob bk b n f = .ok ("❌ Unexpected error: " ++ d)) ∧
    ("⚠️ Error: Bucket \x27" ++ b ++ "\x27 or blob \x27" ++ n ++ "\x27 not found." ≠
      "❌ Unexpected error: " ++ d2) ∧
    -- main.py: delete_blob
    (bk.deleteBlob b n = .error (.notFound d) →
      M1.delete_blob bk b n =
        .ok ("⚠️ Error: Bucket \x27" ++ b ++ "\x27 or blob \x27" ++ n ++ "\x27 not found.")) ∧
    (bk.deleteBlob b n = .error (.forbidden d) →
      M1.delete_blob bk b n = .ok ("❌ Permission denied. Details: " ++ d)) ∧
    (bk.deleteBlob b n = .error (.other d) →
      M1.delete_blob bk b n = .ok ("❌ Unexpected error: " ++ d)) ∧
    ("⚠️ Error: Bucket \x27" ++ b ++ "\x27 or blob \x27" ++ n ++ "\x27 not found." ≠
      "❌ Permission denied. Details: " ++ d2) ∧
    ("⚠️ Error: Bucket \x27" ++ b ++ "\x27 or blob \x27" ++ n ++ "\x27 not found." ≠
      "❌ Unexpected error: " ++ d2) ∧
    ("❌ Permission denied. Details: " ++ d ≠ "❌ Unexpected error: " ++ d2) ∧
    -- main.py: get_bucket_metadata
    (bk.getBucket b = .error (.notFound d) →
      M1.get_bucket_metadata bk b =
        .ok [("error", .str ("⚠️ Bucket \x27" ++ b ++ "\x27 not found."))]) ∧
    (bk.getBucket b = .error (.other d) →
      M1.get_bucket_metadata bk b = .ok [("error", .str ("❌ Unexpected error: " ++ d))]) ∧
    ([(("error" : String), PyVal.str ("⚠️ Bucket \x27" ++ b ++ "\x27 not found."))] ≠
      [("error", PyVal.str ("❌ Unexpected error: " ++ d2))]) ∧
    -- main.py: get_blob_metadata
    (bk.getBlob b n = .error (.notFound d) →
      M1.get_blob_metadata bk b n =
        .ok [("error", .str ("⚠️ Bucket \x27" ++ b ++ "\x27 not found."))]) ∧
    (bk.getBlob b n = .error (.other d) →
      M1.get_blob_metadata bk b n = .ok [("error", .str ("❌ Unexpected error: " ++ d))]) ∧
    ([(("error" : String), PyVal.str ("⚠️ Bucket \x27" ++ b ++ "\x27 not found."))] ≠
      [("error", PyVal.str ("❌ Unexpected error: " ++ d2))]) ∧
    -- main.py: generate_signed_url
    (bk.blobExists b n = .ok true → bk.signUrl b n m = .error (.notFound d) →
      M1.generate_signed_url bk b n m = .ok ("⚠️ Bucket \x27" ++ b ++ "\x27 not found.")) ∧
    (bk.blobExists b n = .ok true → bk.signUrl b n m = .error (.other d) →
      M1.generate_signed_url bk b n m = .ok ("❌ Unexpected error: " ++ d)) ∧
    ("⚠️ Bucket \x27" ++ b ++ "\x27 not found." ≠ "❌ Unexpected error: " ++ d2) ∧
    -- main.py: rename_blob, copy_blob, set_bucket_cors have no category clauses
    (∀ e, bk.blobExists b n = .ok true → bk.renameBlob b n nn = .error e →
      M1.rename_blob bk b n nn = .ok ("❌ Unexpected error: " ++ e.msg)) ∧
    (∀ e, bk.blobExists b n = .ok true → bk.copyBlob b n db dn = .error e →
      M1.copy_blob bk b n db dn = .ok ("❌ Unexpected error: " ++ e.msg)) ∧
    (∀ e, bk.getBucket b = .ok bm → bk.patchCors b r = .error e →
      M1.set_bucket_cors bk b r = .ok ("❌ Unexpected error: " ++ e.msg)) ∧
    -- gcs_mcp_server/main.py: list_gcs_buckets
    (bk.listBuckets = .error (.forbidden d) →
      M2.list_gcs_buckets bk = .ok ["Error: Permission denied to list buckets. Details: " ++ d]) ∧
    (bk.listBuckets = .error (.other d) →
      M2.list_gcs_buckets bk = .ok ["An unexpected error occurred: " ++ d]) ∧
    (["Error: Permission denied to list buckets. Details: " ++ d] ≠
      ["An unexpected error occurred: " ++ d2]) ∧
    -- gcs_mcp_server/main.py: create_bucket
    (bk.createBucket b l = .error (.conflict d) →
      M2.create_bucket bk b l = .ok ("Error: Bucket \x27" ++ b ++ "\x27 already exists.")) ∧
    (bk.createBucket b l = .error (.forbidden d) →
      M2.create_bucket bk b l =
        .ok ("Error: Permission denied to create bucket. Details: " ++ d)) ∧
    (bk.createBucket b l = .error (.other d) →
      M2.create_bucket bk b l = .ok ("An unexpected error occurred: " ++ d)) ∧
    ("Error: Bucket \x27" ++ b ++ "\x27 already exists." ≠
      "Error: Permission denied to create bucket. Details: " ++ d2) ∧
    ("Error: Bucket \x27" ++ b ++ "\x27 already exists." ≠
      "An unexpected error occurred: " ++ d2) ∧
    ("Error: Permission denied to create bucket. Details: " ++ d ≠
      "An unexpected error occurred: " ++ d2) ∧
    -- gcs_mcp_server/main.py: delete_bucket
    (bk.deleteBucket b true = .error (.notFound d) →
      M2.delete_bucket bk b = .ok ("Error: Bucket \x27" ++ b ++ "\x27 not found.")) ∧
    (bk.deleteBucket b true = .error (.forbidden d) →
      M2.delete_bucket bk b =
        .ok ("Error: Permission denied to delete bucket \x27" ++ b ++ "\x27. Details: " ++ d)) ∧
    (bk.deleteBucket b true = .error (.other d) →
      M2.delete_bucket bk b = .ok ("An unexpected error occurred: " ++ d)) ∧
    ("Error: Bucket \x27" ++ b ++ "\x27 not found." ≠
      "Error: Permission denied to delete bucket \x27" ++ b2 ++ "\x27. Details: " ++ d2) ∧
    ("Error: Bucket \x27" ++ b ++ "\x27 not found." ≠ "An unexpected error occurred: " ++ d2) ∧
    ("Error: Permission denied to delete bucket \x27" ++ b ++ "\x27. Details: " ++ d ≠
      "An unexpected error occurred: " ++ d2) ∧
    -- gcs_mcp_server/main.py: list_objects
    (bk.listBlobs b = .error (.notFound d) →
      M2.list_objects bk b = .ok ["Error: Bucket \x27" ++ b ++ "\x27 not found."]) ∧
    (bk.listBlobs b = .error (.other d) →
      M2.list_objects bk b = .ok ["An unexpected error occurred: " ++ d]) ∧
    (["Error: Bucket \x27" ++ b ++ "\x27 not found."] ≠
      ["An unexpected error occurred: " ++ d2]) ∧
    -- gcs_mcp_server/main.py: upload_blob
    (bk.uploadFromFilename b dn src = .error (.fileNotFound d) →
      M2.upload_blob bk b src dn = .ok ("Error: Local file \x27" ++ src ++ "\x27 not found.")) ∧
    (bk.uploadFromFilename b dn src = .error (.notFound d) →
      M2.upload_blob bk b src dn = .ok ("Error: Bucket \x27" ++ b ++ "\x27 not found.")) ∧
    (bk.uploadFromFilename b dn src = .error (.forbidden d) →
      M2.upload_blob bk b src dn = .ok ("Error: Permission denied. Details: " ++ d)) ∧
    (bk.uploadFromFilename b dn src = .error (.other d) →
      M2.upload_blob bk b src dn = .ok ("An unexpected error occurred: " ++ d)) ∧
    ("Error: Local file \x27" ++ src ++ "\x27 not found." ≠
      "Error: Bucket \x27" ++ b2 ++ "\x27 not found.") ∧
    ("Error: Local file \x27" ++ src ++ "\x27 not found." ≠
      "Error: Permission denied. Details: " ++ d2) ∧
    ("Error: Local file \x27" ++ src ++ "\x27 not found." ≠
      "An unexpected error occurred: " ++ d2) ∧
    ("Error: Bucket \x27" ++ b ++ "\x27 not found." ≠
      "Error: Permission denied. Details: " ++ d2) ∧
    ("Error: Bucket \x27" ++ b ++ "\x27 not found." ≠ "An unexpected error occurred: " ++ d2) ∧
    ("Error: Permission denied. Details: " ++ d ≠ "An unexpected error occurred: " ++ d2) ∧
    -- gcs_mcp_server/main.py: download_blob
    (bk.downloadToFilename b n f = .error (.notFound d) →
      M2.download_blob bk b n f =
        .ok ("Error: Bucket \x27" ++ b ++ "\x27 or blob \x27" ++ n ++ "\x27 not found.")) ∧
    (bk.downloadToFilename b n f = .error (.other d) →
      M2.download_blob bk b n f = .ok ("An unexpected error occurred: " ++ d)) ∧
    ("Error: Bucket \x27" ++ b ++ "\x27 or blob \x27" ++ n ++ "\x27 not found." ≠
      "An unexpected error occurred: " ++ d2) ∧
    -- gcs_mcp_server/main.py: delete_blob
    (bk.deleteBlob b n = .error (.notFound d) →
      M2.delete_blob bk b n =
        .ok ("Error: Bucket \x27" ++ b ++ "\x27 or blob \x27" ++ n ++ "\x27 not found.")) ∧
    (bk.deleteBlob b n = .error (.forbidden d) →
      M2.delete_blob bk b n = .ok ("Error: Permission denied. Details: " ++ d)) ∧
    (bk.deleteBlob b n = .error (.other d) →
      M2.delete_blob bk b n = .ok ("An unexpected error occurred: " ++ d)) ∧
    ("Error: Bucket \x27" ++ b ++ "\x27 or blob \x27" ++ n ++ "\x27 not found." ≠
      "Error: Permission denied. Details: " ++ d2) ∧
    ("Error: Bucket \x27" ++ b ++ "\x27 or blob \x27" ++ n ++ "\x27 not found." ≠
      "An unexpected error occurred: " ++ d2) ∧
    ("Error: Permission denied. Details: " ++ d ≠ "An unexpected error occurred: " ++ d2) ∧
    -- gcs_mcp_server/main.py: get_bucket_metadata
    (bk.getBucket b = .error (.notFound d) →
      M2.get_bucket_metadata bk b =
        .ok [("error", .str ("Bucket \x27" ++ b ++ "\x27 not found."))]) ∧
    (bk.getBucket b = .error (.other d) →
      M2.get_bucket_metadata bk b =
        .ok [("error", .str ("An unexpected error occurred: " ++ d))]) ∧
    ([(("error" : String), PyVal.str ("Bucket \x27" ++ b ++ "\x27 not found."))] ≠
      [("error", PyVal.str ("An unexpected error occurred: " ++ d2))]) ∧
    -- gcs_mcp_server/main.py: get_blob_metadata
    (bk.getBlob b n = .error (.notFound d) →
      M2.get_blob_metadata bk b n =
        .ok [("error", .str ("Bucket \x27" ++ b ++ "\x27 not found."))]) ∧
    (bk.getBlob b n = .error (.other d) →
      M2.get_blob_metadata bk b n =
        .ok [("error", .str ("An unexpected error occurred: " ++ d))]) ∧
    ([(("error" : String), PyVal.str ("Bucket \x27" ++ b ++ "\x27 not found."))] ≠
      [("error", PyVal.str ("An unexpected error occurred: " ++ d2))]) ∧
    -- gcs_mcp_server/main.py: generate_signed_url
    (bk.blobExists b n = .ok true → bk.signUrl b n m = .error (.notFound d) →
      M2.generate_signed_url bk b n m = .ok ("Error: Bucket \x27" ++ b ++ "\x27 not found.")) ∧
    (bk.blobExists b n = .ok true → bk.signUrl b n m = .error (.other d) →
      M2.generate_signed_url bk b n m = .ok ("An unexpected error occurred: " ++ d)) ∧
    ("Error: Bucket \x27" ++ b ++ "\x27 not found." ≠ "An unexpected error occurred: " ++ d2) ∧
    -- gcs_mcp_server/main.py: rename_blob
    (bk.blobExists b n = .ok true → bk.renameBlob b n nn = .error (.notFound d) →
      M2.rename_blob bk b n nn =
        .ok ("Error: Bucket \x27" ++ b ++ "\x27 or blob \x27" ++ n ++ "\x27 not found.")) ∧
    (bk.blobExists b n = .ok true → bk.renameBlob b n nn = .error (.other d) →
      M2.rename_blob bk b n nn = .ok ("An unexpected error occurred: " ++ d)) ∧
    ("Error: Bucket \x27" ++ b ++ "\x27 or blob \x27" ++ n ++ "\x27 not found." ≠
      "An unexpected error occurred: " ++ d2) ∧
    -- gcs_mcp_server/main.py: copy_blob
    (bk.blobExists b n = .ok true → bk.copyBlob b n db dn = .error (.notFound d) →
      M2.copy_blob bk b n db dn = .ok "Error: Source or destination bucket not found.") ∧
    (bk.blobExists b n = .ok true → bk.copyBlob b n db dn = .error (.other d) →
      M2.copy_blob bk b n db dn = .ok ("An unexpected error occurred: " ++ d)) ∧
    (("Error: Source or destination bucket not found." : String) ≠
      "An unexpected error occurred: " ++ d2) :=
  ⟨by intro h
      simp [M1.list_gcs_buckets, pySeq_ok hc, pySeq_error h, pyTry, M1.list_gcs_buckets_handler],
   by intro h
      simp [M1.list_gcs_buckets, pySeq_ok hc, pySeq_error h, pyTry, M1.list_gcs_buckets_handler,
        PyExn.msg],
   singleton_ne (ne_of_headDiff (by decide) _ _),
   by intro h
      simp [M1.create_bucket, pySeq_ok hc, pySeq_error h, pyTry, M1.create_bucket_handler],
   by intro h
      simp [M1.create_bucket, pySeq_ok hc, pySeq_error h, pyTry, M1.create_bucket_handler],
   by intro h
      simp [M1.create_bucket, pySeq_ok hc, pySeq_error h, pyTry, M1.create_bucket_handler,
        PyExn.msg],
   by simp only [String.append_assoc]
      exact ne_of_headDiff (by decide) _ _,
   by simp only [String.append_assoc]
      exact ne_of_headDiff (by decide) _ _,
   ne_of_headDiff (by decide) _ _,
   by intro h
      simp [M1.delete_bucket, pySeq_ok hc, pySeq_error h, pyTry, M1.delete_bucket_handler],
   by intro h
      simp [M1.delete_bucket, pySeq_ok hc, pySeq_error h, pyTry, M1.delete_bucket_handler],
   by intro h
      simp [M1.delete_bucket, pySeq_ok hc, pySeq_error h, pyTry, M1.delete_bucket_handler,
        PyExn.msg],
   by simp only [String.append_assoc]
      exact ne_of_headDiff (by decide) _ _,
   by simp only [String.append_assoc]
      exact ne_of_headDiff (by decide) _ _,
   ne_of_headDiff (by decide) _ _,
   by intro h
      simp [M1.list_objects, pySeq_ok hc, pySeq_error h, pyTry, M1.list_objects_handler],
   by intro h
      simp [M1.list_objects, pySeq_ok hc, pySeq_error h, pyTry, M1.list_objects_handler,
        PyExn.msg],
   singleton_ne (by simp only [String.append_assoc]
                    exact ne_of_headDiff (by decide) _ _),
   by intro h
      simp [M1.upload_blob, pySeq_ok hc, pySeq_error h, pyTry, M1.upload_blob_handler],
   by intro h
      simp [M1.upload_blob, pySeq_ok hc, pySeq_error h, pyTry, M1.upload_blob_handler],
   by intro h
      simp [M1.upload_blob, pySeq_ok hc, pySeq_error h, pyTry, M1.upload_blob_handler],
   by intro h
      simp [M1.upload_blob, pySeq_ok hc, pySeq_error h, pyTry, M1.upload_blob_handler,
        PyExn.msg],
   by simp only [String.append_assoc]
      exact ne_of_headDiff (by decide) _ _,
   by simp only [String.append_assoc]
      exact ne_of_headDiff (by decide) _ _,
   by simp only [String.append_assoc]
      exact ne_of_headDiff (by decide) _ _,
   by simp only [String.append_assoc]
      exact ne_of_headDiff (by decide) _ _,
   by simp only [String.append_assoc]
      exact ne_of_headDiff (by decide) _ _,
   ne_of_headDiff (by decide) _ _,
   by intro h
      simp [M1.download_blob, pySeq_ok hc, pySeq_error h, pyTry, M1.download_blob_handler],
   by intro h
      simp [M1.download_blob, pySeq_ok hc, pySeq_error h, pyTry, M1.download_blob_handler,
        PyExn.msg],
   by simp only [String.append_assoc]
      exact ne_of_headDiff (by decide) _ _,
   by intro h
      simp [M1.delete_blob, pySeq_ok hc, pySeq_error h, pyTry, M1.delete_blob_handler],
   by intro h
      simp [M1.delete_blob, pySeq_ok hc, pySeq_error h, pyTry, M1.delete_blob_handler],
   by intro h
      simp [M1.delete_blob, pySeq_ok hc, pySeq_error h, pyTry, M1.delete_blob_handler,
        PyExn.msg],
   by simp only [String.append_assoc]
      exact ne_of_headDiff (by decide) _ _,
   by simp only [String.append_assoc]
      exact ne_of_headDiff (by decide) _ _,
   ne_of_headDiff (by decide) _ _,
   by intro h
      simp [M1.get_bucket_metadata, pySeq_ok hc, pySeq_error h, pyTry,
        M1.get_bucket_metadata_handler],
   by intro h
      simp [M1.get_bucket_metadata, pySeq_ok hc, pySeq_error h, pyTry,
        M1.get_bucket_metadata_handler, PyExn.msg],
   errdict_ne (by simp only [String.append_assoc]
                  exact ne_of_headDiff (by decide) _ _),
   by intro h
      simp [M1.get_blob_metadata, pySeq_ok hc, pySeq_error h, pyTry,
        M1.get_blob_metadata_handler],
   by intro h
      simp [M1.get_blob_metadata, pySeq_ok hc, pySeq_error h, pyTry,
        M1.get_blob_metadata_handler, PyExn.msg],
   errdict_ne (by simp only [String.append_assoc]
                  exact ne_of_headDiff (by decide) _ _),
   by intro hex h
      simp [M1.generate_signed_url, pySeq_ok hc, pySeq_ok hex, pySeq_error h, pyTry,
        M1.generate_signed_url_handler],
   by intro hex h
      simp [M1.generate_signed_url, pySeq_ok hc, pySeq_ok hex, pySeq_error h, pyTry,
        M1.generate_signed_url_handler, PyExn.msg],
   by simp only [String.append_assoc]
      exact ne_of_headDiff (by decide) _ _,
   by intro e hex h
      simp [M1.rename_blob, pySeq_ok hc, pySeq_ok hex, pySeq_error h, pyTry,
        M1.rename_blob_handler],
   by intro e hex h
      simp [M1.copy_blob, pySeq_ok hc, pySeq_ok hex, pySeq_error h, pyTry,
        M1.copy_blob_handler],
   by intro e hg h
      simp [M1.set_bucket_cors, pySeq_ok hc, pySeq_ok hg, pySeq_error h, pyTry,
        M1.set_bucket_cors_handler],
   by intro h
      simp [M2.list_gcs_buckets, pySeq_error h, pyTry, M2.list_gcs_buckets_handler],
   by intro h
      simp [M2.list_gcs_buckets, pySeq_error h, pyTry, M2.list_gcs_buckets_handler, PyExn.msg],
   singleton_ne (ne_of_headDiff (by decide) _ _),
   by intro h
      simp [M2.create_bucket, pySeq_error h, pyTry, M2.create_bucket_handler],
   by intro h
      simp [M2.create_bucket, pySeq_error h, pyTry, M2.create_bucket_handler],
   by intro h
      simp [M2.create_bucket, pySeq_error h, pyTry, M2.create_bucket_handler, PyExn.msg],
   by simp only [String.append_assoc]
      exact ne_of_headDiff (by decide) _ _,
   by simp only [String.append_assoc]
      exact ne_of_headDiff (by decide) _ _,
   ne_of_headDiff (by decide) _ _,
   by intro h
      simp [M2.delete_bucket, pySeq_error h, pyTry, M2.delete_bucket_handler],
   by intro h
      simp [M2.delete_bucket, pySeq_error h, pyTry, M2.delete_bucket_handler],
   by intro h
      simp [M2.delete_bucket, pySeq_error h, pyTry, M2.delete_bucket_handler, PyExn.msg],
   by simp only [String.append_assoc]
      exact ne_of_headDiff (by decide) _ _,
   by simp only [String.append_assoc]
      exact ne_of_headDiff (by decide) _ _,
   by simp only [String.append_assoc]
      exact ne_of_headDiff (by decide) _ _,
   by intro h
      simp [M2.list_objects, pySeq_error h, pyTry, M2.list_objects_handler],
   by intro h
      simp [M2.list_objects, pySeq_error h, pyTry, M2.list_objects_handler, PyExn.msg],
   singleton_ne (by simp only [String.append_assoc]
                    exact ne_of_headDiff (by decide) _ _),
   by intro h
      simp [M2.upload_blob, pySeq_error h, pyTry, M2.upload_blob_handler],
   by intro h
      simp [M2.upload_blob, pySeq_error h, pyTry, M2.upload_blob_handler],
   by intro h
      simp [M2.upload_blob, pySeq_error h, pyTry, M2.upload_blob_handler],
   by intro h
      simp [M2.upload_blob, pySeq_error h, pyTry, M2.upload_blob_handler, PyExn.msg],
   by simp only [String.append_assoc]
      exact ne_of_headDiff (by decide) _ _,
   by simp only [String.append_assoc]
      exact ne_of_headDiff (by decide) _ _,
   by simp only [String.append_assoc]
      exact ne_of_headDiff (by decide) _ _,
   by simp only [String.append_assoc]
      exact ne_of_headDiff (by decide) _ _,
   by simp only [String.append_assoc]
      exact ne_of_headDiff (by decide) _ _,
   ne_of_headDiff (by decide) _ _,
   by intro h
      simp [M2.download_blob, pySeq_error h, pyTry, M2.download_blob_handler],
   by intro h
      simp [M2.download_blob, pySeq_error h, pyTry, M2.download_blob_handler, PyExn.msg],
   by simp only [String.append_assoc]
      exact ne_of_headDiff (by decide) _ _,
   by intro h
      simp [M2.delete_blob, pySeq_error h, pyTry, M2.delete_blob_handler],
   by intro h
      simp [M2.delete_blob, pySeq_error h, pyTry, M2.delete_blob_handler],
   by intro h
      simp [M2.delete_blob, pySeq_error h, pyTry, M2.delete_blob_handler, PyExn.msg],
   by simp only [String.append_assoc]
      exact ne_of_headDiff (by decide) _ _,
   by simp only [String.append_assoc]
      exact ne_of_headDiff (by decide) _ _,
   ne_of_headDiff (by decide) _ _,
   by intro h
      simp [M2.get_bucket_metadata, pySeq_error h, pyTry, M2.get_bucket_metadata_handler],
   by intro h
      simp [M2.get_bucket_metadata, pySeq_error h, pyTry, M2.get_bucket_metadata_handler,
        PyExn.msg],
   errdict_ne (by simp only [String.append_assoc]
                  exact ne_of_headDiff (by decide) _ _),
   by intro h
      simp [M2.get_blob_metadata, pySeq_error h, pyTry, M2.get_blob_metadata_handler],
   by intro h
      simp [M2.get_blob_metadata, pySeq_error h, pyTry, M2.get_blob_metadata_handler,
        PyExn.msg],
   errdict_ne (by simp only [String.append_assoc]
                  exact ne_of_headDiff (by decide) _ _),
   by intro hex h
      simp [M2.generate_signed_url, pySeq_ok hex, pySeq_error h, pyTry,
        M2.generate_signed_url_handler],
   by intro hex h
      simp [M2.generate_signed_url, pySeq_ok hex, pySeq_error h, pyTry,
        M2.generate_signed_url_handler, PyExn.msg],
   by simp only [String.append_assoc]
      exact ne_of_headDiff (by decide) _ _,
   by intro hex h
      simp [M2.rename_blob, pySeq_ok hex, pySeq_error h, pyTry, M2.rename_blob_handler],
   by intro hex h
      simp [M2.rename_blob, pySeq_ok hex, pySeq_error h, pyTry, M2.rename_blob_handler,
        PyExn.msg],
   by simp only [String.append_assoc]
      exact ne_of_headDiff (by decide) _ _,
   by intro hex h
      simp [M2.copy_blob, pySeq_ok hex, pySeq_error h, pyTry, M2.copy_blob_handler],
   by intro hex h
      simp [M2.copy_blob, pySeq_ok hex, pySeq_error h, pyTry, M2.copy_blob_handler, PyExn.msg],
   const_ne_append (by decide) _⟩

/-- A backend whose listing call raises `Forbidden`, for the amended claim
C2 witness. -/
def stubPermDenied : Backend :=
  { stubBackend with listBuckets := .error (.forbidden "403") }

/-- Witness for the amended claim C2 at a concrete backend whose listing
call raises `Forbidden`. -/
theorem claim_C2_witness :
    stubPermDenied.clientInit = .ok () ∧
    stubPermDenied.listBuckets = .error (.forbidden "403") ∧
    M1.list_gcs_buckets stubPermDenied =
      .ok ["Error: Permission denied to list buckets. Details: 403"] :=
  ⟨rfl, rfl,
    (claim_C2_amended_category_messages stubPermDenied "alpha" "beta" "US" "o" "p" "s.txt"
      "dest" "c" "out" "403" "boom" 15 [] stubBucketMeta rfl).1 rfl⟩
